import Mathlib

/-!
Verification development for lantern-server-provisioner.

A shallow embedding of the provisioning engine (`common`, `digitalocean`, `gcp`)
and theorems about its event protocol, retry policy and bootstrap sequence.

Conventions of the embedding.

* A Go `error` value is a `GoError`: either an error made elsewhere (`new`, which is also
  `errors.New`) or the value built by `fmt.Errorf` with a `%w` verb, kept as the format
  string together with its string arguments, its integer arguments and the wrapped error.
* Library calls with an outcome decided outside the program (`ssh.ParsePrivateKey`, `ssh.Dial`,
  `client.NewSession`, `session.CombinedOutput`, `json.Unmarshal`, `json.Marshal`, the cloud
  API clients) are oracles: fields of a structure, indexed by how many calls of that kind
  were made before.
* What the code does to the outside world is recorded, in order, in a trace of `Action`s.
* A background task (`go func() {...}()`) is the list of events it sends on the session
  channel, in order, together with how it ended (returned, or stopped by a run-time panic).
-/

namespace common

/-- Go error values. -/
inductive GoError where
  | new (msg : String)
  | errorf (format : String) (strs : List String) (ints : List Int) (wrapped : GoError)
  deriving DecidableEq, Repr

/-- Effects of the installer on the outside world, as they occur. -/
inductive Action where
  | dial (network : String) (addr : String)
  | sleep (seconds : Nat)
  | newSession
  | combinedOutput (cmd : String)
  | sessionClose
  | clientClose
  deriving DecidableEq, Repr

/-- Outcome of one `session.CombinedOutput(cmd)`: the captured bytes and the error, if any. -/
structure CmdResult where
  output : String
  err : Option GoError
  deriving DecidableEq, Repr

/-- The remote machine and the ssh library, as oracles. `dial n` is the outcome of the call
of `ssh.Dial` made after `n` earlier ones (`none` is success), and likewise for the others. -/
structure Remote where
  parsePrivateKey : String → Option GoError
  dial : Nat → Option GoError
  newSession : Nat → Option GoError
  combinedOutput : Nat → String → CmdResult

/-- Counters of the oracle calls made so far, and the trace of actions. -/
structure St where
  dials : Nat
  sessions : Nat
  runs : Nat
  trace : List Action
  deriving DecidableEq, Repr

/-- The state before anything happened. -/
def St.init : St := ⟨0, 0, 0, []⟩

/-- An `*ssh.Client`: the connection made by the dial with the given index. -/
structure Client where
  dialIndex : Nat
  deriving DecidableEq, Repr

/-- The `maxTries := 10` of `establishSSH`. -/
def maxTries : Nat := 10

/-- The `for { ... }` loop of `establishSSH`, started with the given `tryCounter`. -/
def establishSSH.loop (r : Remote) (ip : String) (tryCounter : Nat) (s : St) :
    Except GoError Client × St :=
  let s1 : St := { s with dials := s.dials + 1, trace := s.trace ++ [Action.dial "tcp" (ip ++ ":22")] }
  match r.dial s.dials with
  | some err =>
    if h : tryCounter ≥ maxTries then
      (Except.error (GoError.errorf "failed to dial SSH: %w after %d attempts" [] [(tryCounter : Int)] err), s1)
    else
      establishSSH.loop r ip (tryCounter + 1) { s1 with trace := s1.trace ++ [Action.sleep 5] }
  | none => (Except.ok ⟨s.dials⟩, s1)
termination_by maxTries - tryCounter
decreasing_by omega

/-- Embedding of `establishSSH(ip, privateKey, username)`. -/
def establishSSH (r : Remote) (ip privateKey : String) (_username : String) (s : St) :
    Except GoError Client × St :=
  match r.parsePrivateKey privateKey with
  | some err => (Except.error (GoError.errorf "failed to parse private key: %w" [] [] err), s)
  | none => establishSSH.loop r ip 0 s

/-- Number of `ssh.Dial` calls in a trace. -/
def dialCount (t : List Action) : Nat :=
  (t.filter (fun a => match a with | Action.dial _ _ => true | _ => false)).length

/-- Total seconds slept in a trace. -/
def sleepSeconds : List Action → Nat
  | [] => 0
  | Action.sleep n :: t => n + sleepSeconds t
  | _ :: t => sleepSeconds t

/-- Number of sleeps in a trace. -/
def sleepCount (t : List Action) : Nat :=
  (t.filter (fun a => match a with | Action.sleep _ => true | _ => false)).length

/-- The trace of `k` failed dials each followed by a 5 second sleep. -/
def retryTrace (addr : String) : Nat → List Action
  | 0 => []
  | k + 1 => Action.dial "tcp" addr :: Action.sleep 5 :: retryTrace addr k

end common

namespace common

/-- A run-time panic of the Go program. -/
structure GoPanic where
  msg : String
  deriving DecidableEq, Repr

/-- The record read from the provisioned server. -/
structure ServerConfiguration where
  ExternalIp : String
  Port : Int
  AccessToken : String
  deriving DecidableEq, Repr

/-- The two `encoding/json` calls of the installer, as oracles on this record type. -/
structure Json where
  Marshal : ServerConfiguration → String
  Unmarshal : String → Except GoError ServerConfiguration

/-- Embedding of `ServerConfiguration.Encode`: the marshalled bytes as a string, the error of
`json.Marshal` being dropped. -/
def ServerConfiguration.Encode (j : Json) (sc : ServerConfiguration) : String :=
  j.Marshal sc

/-- Embedding of `runSSHCommand(client, cmd)`. The deferred `session.Close()` runs when the
function returns, after `CombinedOutput`. -/
def runSSHCommand (r : Remote) (_client : Client) (cmd : String) (s : St) :
    Except GoError String × St :=
  let s1 : St := { s with sessions := s.sessions + 1, trace := s.trace ++ [Action.newSession] }
  match r.newSession s.sessions with
  | some err => (Except.error (GoError.errorf "failed to create SSH session: %w" [] [] err), s1)
  | none =>
    let res := r.combinedOutput s1.runs cmd
    let s2 : St := { s1 with runs := s1.runs + 1,
                             trace := s1.trace ++ [Action.combinedOutput cmd, Action.sessionClose] }
    match res.err with
    | some err => (Except.error (GoError.errorf "failed to run command %q: %w" [cmd] [] err), s2)
    | none => (Except.ok res.output, s2)

/-- The `commands` slice of `InstallServer`. -/
def InstallServer.commands : List String :=
  [ "sudo cloud-init status --wait",
    "sudo sh -c \x27echo deb [trusted=yes] https://apt.fury.io/getlantern/ / > /etc/apt/sources.list.d/getlantern.list\x27",
    "sudo apt-get update -y -q",
    "sudo apt-get install -y lantern-server-manager sing-box-extensions fail2ban firewalld",
    "sudo firewall-cmd --add-port 22/tcp --permanent",
    "sudo systemctl restart systemd-journald",
    "sudo systemctl enable --now firewalld lantern-server-manager fail2ban sing-box-extensions" ]

/-- The `for _, cmd := range commands` loop of `InstallServer`: `some err2` when a command
made the function return, `none` when the loop ran to its end. -/
def InstallServer.runCommands (r : Remote) (client : Client) :
    List String → St → Option GoError × St
  | [], s => (none, s)
  | cmd :: rest, s =>
    match runSSHCommand r client cmd s with
    | (Except.error err2, s1) => (some err2, s1)
    | (Except.ok _, s1) => InstallServer.runCommands r client rest s1

/-- The path read back by `InstallServer`. -/
def InstallServer.readCommand : String := "sudo cat /opt/lantern/data/server.json"

/-- Embedding of `InstallServer(ip, privateSSHKey, username)`. The deferred `client.Close()`
runs on every return after the connection was made. -/
def InstallServer (r : Remote) (j : Json) (ip privateSSHKey username : String) (s : St) :
    Except GoError ServerConfiguration × St :=
  match establishSSH r ip privateSSHKey username s with
  | (Except.error err, s1) =>
    (Except.error (GoError.errorf "failed to establish SSH connection: %w" [] [] err), s1)
  | (Except.ok client, s1) =>
    match InstallServer.runCommands r client InstallServer.commands s1 with
    | (some err2, s2) => (Except.error err2, { s2 with trace := s2.trace ++ [Action.clientClose] })
    | (none, s2) =>
      let s3 : St := { s2 with trace := s2.trace ++ [Action.sleep 5] }
      match runSSHCommand r client InstallServer.readCommand s3 with
      | (Except.error err, s4) =>
        (Except.error (GoError.errorf "failed to read config file: %w" [] [] err),
          { s4 with trace := s4.trace ++ [Action.clientClose] })
      | (Except.ok output, s4) =>
        match j.Unmarshal output with
        | Except.error err =>
          (Except.error (GoError.errorf "failed to parse config file: %w" [] [] err),
            { s4 with trace := s4.trace ++ [Action.clientClose] })
        | Except.ok config => (Except.ok config, { s4 with trace := s4.trace ++ [Action.clientClose] })

/-- The commands handed to `session.CombinedOutput` in a trace, in order. -/
def attempted : List Action → List String
  | [] => []
  | Action.combinedOutput cmd :: t => cmd :: attempted t
  | _ :: t => attempted t

/-- The crypto library calls of `MakeSSHKeyPair`, as oracles; key material is kept as text. -/
structure Crypto where
  GenerateKey : Except GoError String
  NewPublicKey : String → Except GoError String
  EncodePrivateKeyPEM : String → String
  MarshalAuthorizedKey : String → String

/-- Embedding of `MakeSSHKeyPair()`: the public key, then the private key. -/
def MakeSSHKeyPair (c : Crypto) : Except GoError (String × String) :=
  match c.GenerateKey with
  | Except.error err => Except.error err
  | Except.ok privateKey =>
    match c.NewPublicKey privateKey with
    | Except.error err => Except.error err
    | Except.ok pub => Except.ok (c.MarshalAuthorizedKey pub, c.EncodePrivateKeyPEM privateKey)

/-- The clock read by `MakeInstanceName`, already formatted as `20060102` and `150405`. -/
structure Clock where
  date : String
  time : String

/-- Embedding of `MakeInstanceName()`. -/
def MakeInstanceName (clock : Clock) : String :=
  "lantern-" ++ clock.date ++ "-" ++ clock.time

/-- The event types of `oauth.go`, in the order of the `iota` block. -/
inductive EventType where
  | OAuthStarted
  | OAuthCompleted
  | OAuthCancelled
  | OAuthError
  | ValidationStarted
  | ValidationCompleted
  | ValidationError
  | ProvisioningStarted
  | ProvisioningCompleted
  | ProvisioningError
  deriving DecidableEq, Repr

/-- An event sent on the session channel. The zero value of a field is `none` or `""`. -/
structure Event where
  Type_ : EventType
  Error : Option GoError
  Message : String
  deriving DecidableEq, Repr

/-- What a background task did: the events it sent, in order, and the panic that stopped it,
if one did. -/
structure Run where
  events : List Event
  panic : Option GoPanic
  deriving DecidableEq, Repr

/-- Modelled from the spec: the `GeoLocation` record (its declaration is not among the
sources); only the two fields read by `compartment.go` are kept. -/
structure GeoLocation where
  ID : String
  CountryCode : String
  deriving DecidableEq, Repr

/-- The `CloudLocation` interface. `GetLocation` yields `none` for a nil pointer; an
implementation may panic. -/
class CloudLocation (L : Type) where
  GetID : L → String
  GetLocation : L → Except GoPanic (Option GeoLocation)

/-- A project-like unit with its locations. -/
structure CompartmentEntry (L : Type) where
  ID : String
  Locations : List L
  deriving DecidableEq, Repr

/-- A billing account or equivalent. -/
structure Compartment (L : Type) where
  ID : String
  Name : String
  Entries : List (CompartmentEntry L)
  deriving DecidableEq, Repr

/-- The label of `fmt.Sprintf("%s - %s [%s]", id, loc.ID, loc.CountryCode)`. -/
def locationLabel (id : String) (loc : GeoLocation) : String :=
  id ++ " - " ++ loc.ID ++ " [" ++ loc.CountryCode ++ "]"

/-- The loop of `CompartmentEntryLocations` over the locations of an entry. -/
def CompartmentEntryLocations.loop {L : Type} [CloudLocation L] :
    List L → List String → Except GoPanic (List String)
  | [], locations => Except.ok locations
  | e :: rest, locations =>
    match CloudLocation.GetLocation e with
    | Except.error p => Except.error p
    | Except.ok none => CompartmentEntryLocations.loop rest locations
    | Except.ok (some loc) =>
      CompartmentEntryLocations.loop rest (locations ++ [locationLabel (CloudLocation.GetID e) loc])

/-- Embedding of `CompartmentEntryLocations(entry)`. -/
def CompartmentEntryLocations {L : Type} [CloudLocation L] (entry : CompartmentEntry L) :
    Except GoPanic (List String) :=
  CompartmentEntryLocations.loop entry.Locations []

/-- Embedding of `CompartmentLocationByIdentifier(entries, id)`: `none` is the nil interface.
Reading `loc.ID` through a nil `loc` is a nil pointer dereference. -/
def CompartmentLocationByIdentifier {L : Type} [CloudLocation L] :
    List L → String → Except GoPanic (Option L)
  | [], _ => Except.ok none
  | e :: rest, id =>
    match CloudLocation.GetLocation e with
    | Except.error p => Except.error p
    | Except.ok none => Except.error ⟨"invalid memory address or nil pointer dereference"⟩
    | Except.ok (some loc) =>
      if id = locationLabel (CloudLocation.GetID e) loc then Except.ok (some e)
      else CompartmentLocationByIdentifier rest id

/-- A location is usable when `GetLocation` returns a non-nil `GeoLocation`. -/
def resolvable {L : Type} [CloudLocation L] (l : L) : Bool :=
  match CloudLocation.GetLocation l with
  | Except.ok (some _) => true
  | _ => false

end common

namespace common

/-- Modelled from the spec: the predefined `GeoLocation` values named by
`digitalocean/model.go` (their declarations are not among the sources). -/
def AMSTERDAM : GeoLocation := ⟨"amsterdam", "NL"⟩

/-- Modelled from the spec: see `AMSTERDAM`. -/
def BANGALORE : GeoLocation := ⟨"bangalore", "IN"⟩

/-- Modelled from the spec: see `AMSTERDAM`. -/
def FRANKFURT : GeoLocation := ⟨"frankfurt", "DE"⟩

/-- Modelled from the spec: see `AMSTERDAM`. -/
def LONDON : GeoLocation := ⟨"london", "GB"⟩

/-- Modelled from the spec: see `AMSTERDAM`. -/
def NEW_YORK_CITY : GeoLocation := ⟨"new-york-city", "US"⟩

/-- Modelled from the spec: see `AMSTERDAM`. -/
def SAN_FRANCISCO : GeoLocation := ⟨"san-francisco", "US"⟩

/-- Modelled from the spec: see `AMSTERDAM`. -/
def SINGAPORE : GeoLocation := ⟨"singapore", "SG"⟩

/-- Modelled from the spec: see `AMSTERDAM`. -/
def SYDNEY : GeoLocation := ⟨"sydney", "AU"⟩

/-- Modelled from the spec: see `AMSTERDAM`. -/
def TORONTO : GeoLocation := ⟨"toronto", "CA"⟩

/-- The UTF-8 bytes of a character: a Go string is its byte sequence. -/
def utf8Bytes (c : Char) : List Nat :=
  let n := c.toNat
  if n < 0x80 then [n]
  else if n < 0x800 then [0xC0 + n / 64, 0x80 + n % 64]
  else if n < 0x10000 then [0xE0 + n / 4096, 0x80 + (n / 64) % 64, 0x80 + n % 64]
  else [0xF0 + n / 262144, 0x80 + (n / 4096) % 64, 0x80 + (n / 64) % 64, 0x80 + n % 64]

/-- The bytes of a string. -/
def goBytes (s : String) : List Nat :=
  s.data.flatMap utf8Bytes

end common

namespace digitalocean

open common

/-- Embedding of `RegionInfo`. -/
structure RegionInfo where
  Slug : String
  Name : String
  Sizes : List String
  Available : Bool
  Features : List String
  deriving DecidableEq, Repr

/-- Embedding of `ProjectInfo` (the two time stamps are left out). -/
structure ProjectInfo where
  Id : String
  OwnerUuid : String
  OwnerId : Int
  Name : String
  Description : String
  Purpose : String
  Environment : String
  IsDefault : Bool
  deriving DecidableEq, Repr

/-- Embedding of `Account`. -/
structure Account where
  DropletLimit : Int
  Email : String
  UUID : String
  EmailVerified : Bool
  Status : String
  StatusMessage : String
  deriving DecidableEq, Repr

/-- Embedding of `DropletSpecification`. -/
structure DropletSpecification where
  InstallCommand : String
  Size : String
  Image : String
  Tags : List String
  deriving DecidableEq, Repr

/-- An element of `DropletInfo.Networks.V4`. -/
structure NetworkV4 where
  Type_ : String
  IPAddress : String
  deriving DecidableEq, Repr

/-- Embedding of `DropletInfo`; `V4` is `Networks.V4` (the `Size` block is left out). -/
structure DropletInfo where
  ID : Int
  Status : String
  Tags : List String
  RegionSlug : String
  V4 : List NetworkV4
  deriving DecidableEq, Repr

/-- Embedding of `RegionInfo.GetID`. -/
def RegionInfo.GetID (r : RegionInfo) : String :=
  r.Slug

/-- The `locationMap` of `RegionInfo.GetLocation`. -/
def RegionInfo.locationMap : List (String × GeoLocation) :=
  [ ("ams", AMSTERDAM), ("blr", BANGALORE), ("fra", FRANKFURT), ("lon", LONDON),
    ("nyc", NEW_YORK_CITY), ("sfo", SAN_FRANCISCO), ("sgp", SINGAPORE), ("syd", SYDNEY),
    ("tor", TORONTO) ]

/-- The effect of `strings.ToLower` on one byte of the three-byte slice: an upper-case ASCII
letter becomes lower case. A slice with a byte outside ASCII is no key of `locationMap` before
or after `strings.ToLower` (which keeps the number of runes), so such bytes are kept. -/
def toLowerByte (b : Nat) : Nat :=
  if 65 ≤ b ∧ b ≤ 90 then b + 32 else b

/-- Embedding of `RegionInfo.GetLocation`: `r.Slug[0:3]` panics on a slug shorter than three
bytes; the map lookup of an absent key gives nil. -/
def RegionInfo.GetLocation (r : RegionInfo) : Except GoPanic (Option GeoLocation) :=
  let bytes := goBytes r.Slug
  if bytes.length < 3 then
    Except.error ⟨"slice bounds out of range"⟩
  else
    let cityCode := (bytes.take 3).map toLowerByte
    Except.ok ((RegionInfo.locationMap.find? (fun kv => goBytes kv.1 = cityCode)).map (fun kv => kv.2))

instance : CloudLocation RegionInfo where
  GetID := RegionInfo.GetID
  GetLocation := RegionInfo.GetLocation

/-- The DigitalOcean API calls used by the provisioner, as oracles. -/
structure APIClient where
  GetAccount : String → Except GoError Account
  GetProjects : Except GoError (List ProjectInfo)
  GetRegionInfo : Except GoError (List RegionInfo)
  CreateDroplet : String → String → String → DropletSpecification → Except GoError DropletInfo

/-- Embedding of the `Provisioner` record: the compartments found by `Validate`. -/
structure Provisioner where
  accounts : List (Compartment RegionInfo)
  deriving DecidableEq, Repr

/-- Embedding of `Provisioner.Compartments`. -/
def Provisioner.Compartments (p : Provisioner) : List (Compartment RegionInfo) :=
  p.accounts

/-- The `for _, ri := range regionInfo` loop of `Validate`. -/
def Validate.locsLoop : List RegionInfo → List RegionInfo → List RegionInfo
  | [], locs => locs
  | ri :: rest, locs =>
    if ri.Available then Validate.locsLoop rest (locs ++ [ri])
    else Validate.locsLoop rest locs

/-- The `for _, project := range projects` loop of `Validate`. -/
def Validate.entriesLoop (locs : List RegionInfo) :
    List ProjectInfo → List (CompartmentEntry RegionInfo) → List (CompartmentEntry RegionInfo)
  | [], entries => entries
  | project :: rest, entries =>
    Validate.entriesLoop locs rest (entries ++ [⟨project.Id, locs⟩])

/-- Embedding of the background task of `Provisioner.Validate`: the provisioner afterwards and
the events sent. -/
def Provisioner.Validate (api : APIClient) (p : Provisioner) (token : String) :
    Provisioner × Run :=
  let started : Event := ⟨EventType.ValidationStarted, none, ""⟩
  match api.GetAccount token with
  | Except.error err => (p, ⟨[started, ⟨EventType.ValidationError, some err, ""⟩], none⟩)
  | Except.ok account =>
    match api.GetProjects with
    | Except.error err => (p, ⟨[started, ⟨EventType.ValidationError, some err, ""⟩], none⟩)
    | Except.ok projects =>
      match api.GetRegionInfo with
      | Except.error err => (p, ⟨[started, ⟨EventType.ValidationError, some err, ""⟩], none⟩)
      | Except.ok regionInfo =>
        let locs := Validate.locsLoop regionInfo []
        let entries := Validate.entriesLoop locs projects []
        (⟨[⟨account.UUID, account.Email, entries⟩]⟩,
          ⟨[started, ⟨EventType.ValidationCompleted, none, ""⟩], none⟩)

/-- Embedding of the background task of `Provisioner.Provision`. Indexing `Networks.V4[0]` of
a droplet without a v4 network is an index-out-of-range panic. -/
def Provisioner.Provision (api : APIClient) (crypto : Crypto) (clock : Clock) (r : Remote)
    (j : Json) (placementID locationID : String) : Run :=
  let started : Event := ⟨EventType.ProvisioningStarted, none, placementID⟩
  match MakeSSHKeyPair crypto with
  | Except.error err => ⟨[started, ⟨EventType.ProvisioningError, some err, ""⟩], none⟩
  | Except.ok (publicSSHKey, privateSSHKey) =>
    let name := MakeInstanceName clock
    match api.CreateDroplet name locationID publicSSHKey ⟨"", "s-1vcpu-1gb", "ubuntu-22-04-x64", []⟩ with
    | Except.error err => ⟨[started, ⟨EventType.ProvisioningError, some err, ""⟩], none⟩
    | Except.ok di =>
      match di.V4 with
      | [] => ⟨[started], some ⟨"index out of range [0] with length 0"⟩⟩
      | v :: _ =>
        let ip := v.IPAddress
        match (InstallServer r j ip privateSSHKey "root" St.init).1 with
        | Except.error err => ⟨[started, ⟨EventType.ProvisioningError, some err, ""⟩], none⟩
        | Except.ok conf =>
          ⟨[started, ⟨EventType.ProvisioningCompleted, none, conf.Encode j⟩], none⟩

end digitalocean

namespace gcp

open common

/-- A billing account, with the two fields read by `Validate`. -/
structure BillingAccount where
  Name : String
  DisplayName : String
  deriving DecidableEq, Repr

/-- An access configuration of a network interface. -/
structure AccessConfig where
  NatIP : String
  deriving DecidableEq, Repr

/-- A network interface of an instance. -/
structure NetworkInterface where
  AccessConfigs : List AccessConfig
  deriving DecidableEq, Repr

/-- An instance, with the fields read by `Provision`. -/
structure Instance where
  Description : String
  NetworkInterfaces : List NetworkInterface
  deriving DecidableEq, Repr

/-- A reserved address. -/
structure StaticIp where
  Address : String
  deriving DecidableEq, Repr

/-- The request of `CreateStaticIP`. -/
structure StaticIpCreate where
  Address : String
  Name : String
  Description : String
  deriving DecidableEq, Repr

/-- The locator of an instance. -/
structure Locator where
  ProjectID : String
  ZoneID : String
  InstanceID : String
  deriving DecidableEq, Repr

/-- The locator of a region. -/
structure RegionLocator where
  ProjectID : String
  RegionID : String
  deriving DecidableEq, Repr

/-- The GCP client and the package helpers called by the provisioner, as oracles over a zone
type `Z` (these declarations are not among the sources; the signatures are read off the
calls in `gcp/provisioner.go`). -/
structure APIClient (Z : Type) where
  ListBillingAccounts : Except GoError (List BillingAccount)
  ListBillingAccountProjects : String → Except GoError (List String)
  ListZones : String → Except GoError (List Z)
  IsProjectHealthy : String → Bool
  CreateFirewallIfNeeded : String → Option GoError
  CreateInstance : String → String → String → Except GoError (String × String)
  GetInstance : Locator → Except GoError Instance
  GetZoneRegionID : String → String
  GetStaticIP : RegionLocator → String → Except GoError StaticIp
  CreateStaticIP : RegionLocator → StaticIpCreate → Except GoError StaticIp

/-- Embedding of the `Provisioner` record: the compartments collected by `Validate`. -/
structure Provisioner (Z : Type) where
  compartments : List (Compartment Z)

/-- Embedding of `Provisioner.Compartments`. -/
def Provisioner.Compartments {Z : Type} (p : Provisioner Z) : List (Compartment Z) :=
  p.compartments

/-- How the address lookup of `Provision` ends. -/
inductive IPResult where
  | ip (address : String)
  | failed (err : GoError)
  | panicked (p : GoPanic)
  deriving DecidableEq, Repr

/-- The `if sip, err := p.client.GetStaticIP(...); err != nil {...} else {...}` block of
`Provision`. -/
def Provision.resolveIP {Z : Type} (api : APIClient Z) (regionLocator : RegionLocator)
    (instanceName : String) (inst : Instance) : IPResult :=
  match api.GetStaticIP regionLocator instanceName with
  | Except.ok sip => IPResult.ip sip.Address
  | Except.error _ =>
    match inst.NetworkInterfaces with
    | [] => IPResult.panicked ⟨"index out of range [0] with length 0"⟩
    | ni :: _ =>
      let natIP := match ni.AccessConfigs with
        | [] => ""
        | ac :: _ => ac.NatIP
      match api.CreateStaticIP regionLocator ⟨natIP, instanceName, inst.Description⟩ with
      | Except.error err => IPResult.failed err
      | Except.ok sip => IPResult.ip sip.Address

/-- Embedding of the background task of `Provisioner.Provision`. -/
def Provisioner.Provision {Z : Type} (api : APIClient Z) (crypto : Crypto) (r : Remote)
    (j : Json) (projectID locationID : String) : Run :=
  let started : Event := ⟨EventType.ProvisioningStarted, none, projectID⟩
  match MakeSSHKeyPair crypto with
  | Except.error err => ⟨[started, ⟨EventType.ProvisioningError, some err, ""⟩], none⟩
  | Except.ok (publicSSHKey, privateSSHKey) =>
    if !api.IsProjectHealthy projectID then
      ⟨[started, ⟨EventType.ProvisioningError, some (GoError.new "project is not healthy"), ""⟩], none⟩
    else
      match api.CreateFirewallIfNeeded projectID with
      | some err => ⟨[started, ⟨EventType.ProvisioningError, some err, ""⟩], none⟩
      | none =>
        match api.CreateInstance projectID locationID publicSSHKey with
        | Except.error err => ⟨[started, ⟨EventType.ProvisioningError, some err, ""⟩], none⟩
        | Except.ok (instanceName, instanceID) =>
          match api.GetInstance ⟨projectID, locationID, instanceID⟩ with
          | Except.error err => ⟨[started, ⟨EventType.ProvisioningError, some err, ""⟩], none⟩
          | Except.ok inst =>
            let regionLocator : RegionLocator := ⟨projectID, api.GetZoneRegionID locationID⟩
            match Provision.resolveIP api regionLocator instanceName inst with
            | IPResult.panicked p => ⟨[started], some p⟩
            | IPResult.failed err => ⟨[started, ⟨EventType.ProvisioningError, some err, ""⟩], none⟩
            | IPResult.ip ip =>
              match (InstallServer r j ip privateSSHKey "ubuntu" St.init).1 with
              | Except.error _ => ⟨[started], none⟩
              | Except.ok sc =>
                ⟨[started, ⟨EventType.ProvisioningCompleted, none, sc.Encode j⟩], none⟩

/-- The `for _, zone := range zones` loop of `Validate`. -/
def Validate.zoneLoop {Z : Type} [CloudLocation Z] : List Z → List Z → Except GoPanic (List Z)
  | [], res => Except.ok res
  | zone :: rest, res =>
    match CloudLocation.GetLocation zone with
    | Except.error p => Except.error p
    | Except.ok (some _) => Validate.zoneLoop rest (res ++ [zone])
    | Except.ok none => Validate.zoneLoop rest res

/-- The `for _, project := range projects` loop of `Validate`. -/
def Validate.projectLoop {Z : Type} [CloudLocation Z] (api : APIClient Z) :
    List String → List (CompartmentEntry Z) → Except GoPanic (List (CompartmentEntry Z))
  | [], entries => Except.ok entries
  | project :: rest, entries =>
    match api.ListZones project with
    | Except.error _ => Validate.projectLoop api rest entries
    | Except.ok zones =>
      if zones.length > 0 then
        match Validate.zoneLoop zones [] with
        | Except.error p => Except.error p
        | Except.ok res => Validate.projectLoop api rest (entries ++ [⟨project, res⟩])
      else
        Validate.projectLoop api rest entries

/-- The `for _, account := range ba` loop of `Validate` and the send that follows it: the
compartments afterwards, and the events sent after `ValidationStarted`. -/
def Validate.accountLoop {Z : Type} [CloudLocation Z] (api : APIClient Z) :
    List BillingAccount → List (Compartment Z) → List (Compartment Z) × Run
  | [], compartments => (compartments, ⟨[⟨EventType.ValidationCompleted, none, ""⟩], none⟩)
  | account :: rest, compartments =>
    match api.ListBillingAccountProjects account.Name with
    | Except.error err => (compartments, ⟨[⟨EventType.ValidationError, some err, ""⟩], none⟩)
    | Except.ok projects =>
      if projects.length = 0 then
        Validate.accountLoop api rest compartments
      else
        match Validate.projectLoop api projects [] with
        | Except.error p => (compartments, ⟨[], some p⟩)
        | Except.ok entries =>
          Validate.accountLoop api rest
            (compartments ++ [⟨account.Name, account.DisplayName, entries⟩])

/-- Embedding of the background task of `Provisioner.Validate`: the provisioner afterwards and
the events sent. -/
def Provisioner.Validate {Z : Type} [CloudLocation Z] (api : APIClient Z) (p : Provisioner Z)
    (_token : String) : Provisioner Z × Run :=
  let started : Event := ⟨EventType.ValidationStarted, none, ""⟩
  match api.ListBillingAccounts with
  | Except.error err => (p, ⟨[started, ⟨EventType.ValidationError, some err, ""⟩], none⟩)
  | Except.ok ba =>
    let res := Validate.accountLoop api ba p.compartments
    (⟨res.1⟩, ⟨started :: res.2.events, res.2.panic⟩)

end gcp

namespace common

/-- The outcome of `runSSHCommand` for the command issued after `i` earlier ones on the same
connection, each of which opened its session and ran. -/
def commandOutcome (r : Remote) (i : Nat) (cmd : String) : Except GoError String :=
  (runSSHCommand r ⟨0⟩ cmd ⟨0, i, i, []⟩).1

/-- The actions of one `runSSHCommand` whose session opens. -/
def commandTrace (cmd : String) : List Action :=
  [Action.newSession, Action.combinedOutput cmd, Action.sessionClose]

/-- Number of `runSSHCommand` calls in a trace: each one starts by opening a session. -/
def sessionCount (t : List Action) : Nat :=
  (t.filter (fun a => a = Action.newSession)).length

/-- The text of the configuration file of the sample server. -/
def sampleFile : String :=
  "\x7b\"external_ip\":\"203.0.113.5\",\"port\":443,\"access_token\":\"abc\"\x7d"

/-- The record held by `sampleFile`. -/
def sampleConfig : ServerConfiguration := ⟨"203.0.113.5", 443, "abc"⟩

/-- A sample remote: the key parses, the first `refused` dials fail, sessions open, the
command with index `failing` (if any) fails after printing `out`, and the configuration file
holds `file`. -/
def sampleRemote (refused : Nat) (failing : Option Nat) (out : String) (file : String) : Remote where
  parsePrivateKey := fun _ => none
  dial := fun n => if n < refused then some (GoError.new "connection refused") else none
  newSession := fun _ => none
  combinedOutput := fun n cmd =>
    if failing = some n then ⟨out, some (GoError.new "Process exited with status 100")⟩
    else if cmd = InstallServer.readCommand then ⟨file, none⟩
    else ⟨"", none⟩

/-- A sample of the json library: it writes the three fields in order (no character of the
sample needs escaping) and reads `sampleFile` only. -/
def sampleJson : Json where
  Marshal := fun sc =>
    "\x7b\"external_ip\":\"" ++ sc.ExternalIp ++ "\",\"port\":" ++ toString sc.Port
      ++ ",\"access_token\":\"" ++ sc.AccessToken ++ "\"\x7d"
  Unmarshal := fun s =>
    if s = sampleFile then Except.ok sampleConfig
    else Except.error (GoError.new "invalid character")

/-- A sample of the crypto library that always makes the same key. -/
def sampleCrypto : Crypto where
  GenerateKey := Except.ok "private"
  NewPublicKey := fun _ => Except.ok "public"
  EncodePrivateKeyPEM := fun k => k
  MarshalAuthorizedKey := fun k => k

end common

namespace digitalocean

open common

/-- A sample client: one account, the given projects and regions, and a droplet with the
given v4 networks. -/
def sampleClient (projects : List ProjectInfo) (regions : List RegionInfo)
    (v4 : List NetworkV4) : APIClient where
  GetAccount := fun _ => Except.ok ⟨10, "ops@example.org", "uuid-1", true, "active", ""⟩
  GetProjects := Except.ok projects
  GetRegionInfo := Except.ok regions
  CreateDroplet := fun _ location _ _ => Except.ok ⟨42, "new", [], location, v4⟩

/-- A sample project. -/
def sampleProject : ProjectInfo := ⟨"p-1", "uuid-1", 1, "default", "", "", "", true⟩

/-- A sample region with the given slug and availability. -/
def sampleRegion (slug : String) (available : Bool) : RegionInfo :=
  ⟨slug, slug, [], available, []⟩

/-- A sample clock. -/
def sampleClock : Clock := ⟨"20250102", "030405"⟩

end digitalocean

namespace gcp

open common

/-- A sample zone type: a zone with its identifier and the location it resolves to, if any. -/
structure SampleZone where
  ID : String
  Location : Option GeoLocation
  deriving DecidableEq, Repr

instance : CloudLocation SampleZone where
  GetID := fun z => z.ID
  GetLocation := fun z => Except.ok z.Location

/-- A sample client: one billing account with the given projects and zone listings, a healthy
project, and an instance whose reserved address is found. -/
def sampleClient (projects : List String) (zones : String → Except GoError (List SampleZone)) :
    APIClient SampleZone where
  ListBillingAccounts := Except.ok [⟨"billingAccounts/1", "Main"⟩]
  ListBillingAccountProjects := fun _ => Except.ok projects
  ListZones := zones
  IsProjectHealthy := fun _ => true
  CreateFirewallIfNeeded := fun _ => none
  CreateInstance := fun _ _ _ => Except.ok ("lantern-20250102-030405", "7")
  GetInstance := fun _ => Except.ok ⟨"", [⟨[⟨"203.0.113.5"⟩]⟩]⟩
  GetZoneRegionID := fun z => z
  GetStaticIP := fun _ _ => Except.ok ⟨"203.0.113.5"⟩
  CreateStaticIP := fun _ _ => Except.ok ⟨"203.0.113.5"⟩

end gcp

namespace gcp

open common

/-- What `Validate` is to record for a project, written from the claim: nothing when the zone
listing fails or is empty, else the project with its zones that resolve to a location. -/
def Validate.specEntry {Z : Type} [CloudLocation Z] (api : APIClient Z) (project : String) :
    Option (CompartmentEntry Z) :=
  match api.ListZones project with
  | Except.error _ => none
  | Except.ok zones =>
    if zones.isEmpty then none else some ⟨project, zones.filter resolvable⟩

/-- What `Validate` is to record for a billing account whose project listing succeeds,
written from the claim: nothing when it has no project, else one compartment with the
entries of its projects in listing order. -/
def Validate.specCompartment {Z : Type} [CloudLocation Z] (api : APIClient Z)
    (account : BillingAccount) : Option (Compartment Z) :=
  match api.ListBillingAccountProjects account.Name with
  | Except.error _ => none
  | Except.ok projects =>
    if projects.isEmpty then none
    else some ⟨account.Name, account.DisplayName, projects.filterMap (Validate.specEntry api)⟩

end gcp

namespace gcp

open common

/-- A sample zone listing: it fails for `proj-1`, is empty for `proj-3`, and has one zone
that resolves and one that does not for any other project. -/
def sampleZones (project : String) : Except GoError (List SampleZone) :=
  if project = "proj-1" then Except.error (GoError.new "403 forbidden")
  else if project = "proj-3" then Except.ok []
  else Except.ok [⟨"europe-west4-a", some AMSTERDAM⟩, ⟨"moon-1-a", none⟩]

end gcp

namespace digitalocean

open common

/-- A sample region record for the slug `nyc1`. -/
def nyc1 : RegionInfo := ⟨"nyc1", "New York 1", [], true, []⟩

/-- A second sample record with the same slug and another name. -/
def nyc1Legacy : RegionInfo := ⟨"nyc1", "New York 1 (legacy)", [], true, []⟩

end digitalocean

namespace common

/-- The label a location is to get, written from the claim: the label built from its
identifier and its `GeoLocation` when `GetLocation` gives one, and none otherwise. -/
def specLabel {L : Type} [CloudLocation L] (e : L) : Option String :=
  match CloudLocation.GetLocation e with
  | Except.ok (some loc) => some (locationLabel (CloudLocation.GetID e) loc)
  | _ => none

/-- A remote whose key parses and whose every dial is refused, each with its own error. -/
def refusingRemote : Remote where
  parsePrivateKey := fun _ => none
  dial := fun n => some (GoError.new ("connection refused (dial " ++ toString n ++ ")"))
  newSession := fun _ => none
  combinedOutput := fun _ _ => ⟨"", none⟩

end common

namespace digitalocean

open common

/-- The table of the claim: each three-letter city code with its location. -/
def specTable : List (String × GeoLocation) :=
  [ ("ams", AMSTERDAM), ("blr", BANGALORE), ("fra", FRANKFURT), ("lon", LONDON),
    ("nyc", NEW_YORK_CITY), ("sfo", SAN_FRANCISCO), ("sgp", SINGAPORE), ("syd", SYDNEY),
    ("tor", TORONTO) ]

/-- The lower-cased first three characters of a slug. `Char.toLower` changes the ASCII
letters only; a character outside ASCII lower-cases to no letter of the nine city codes, so
the lookup below is the same with the Unicode lower-casing. -/
def specCityCode (slug : String) : String :=
  String.mk ((slug.data.take 3).map Char.toLower)

/-- The location of a slug, written from the claim: the entry of the table for the
lower-cased first three characters of the slug, and none for any other prefix. -/
def specLocation (slug : String) : Option GeoLocation :=
  List.lookup (specCityCode slug) specTable

end digitalocean

namespace common

/-- Unfolding of the retry loop when the dial fails and tries remain. -/
theorem establishSSH.loop_fail_retry (r : Remote) (ip : String) (c : Nat) (s : St) (e : GoError)
    (hd : r.dial s.dials = some e) (hc : c < maxTries) :
    establishSSH.loop r ip c s =
      establishSSH.loop r ip (c + 1)
        { s with dials := s.dials + 1,
                 trace := s.trace ++ [Action.dial "tcp" (ip ++ ":22")] ++ [Action.sleep 5] } := by
  rw [establishSSH.loop]
  simp only [hd]
  have : ¬ c ≥ maxTries := by omega
  simp [this]

/-- Unfolding of the retry loop when the dial fails and no tries remain. -/
theorem establishSSH.loop_fail_last (r : Remote) (ip : String) (c : Nat) (s : St) (e : GoError)
    (hd : r.dial s.dials = some e) (hc : c ≥ maxTries) :
    establishSSH.loop r ip c s =
      (Except.error (GoError.errorf "failed to dial SSH: %w after %d attempts" [] [(c : Int)] e),
        { s with dials := s.dials + 1,
                 trace := s.trace ++ [Action.dial "tcp" (ip ++ ":22")] }) := by
  rw [establishSSH.loop]
  simp only [hd]
  simp [hc]

/-- Unfolding of the retry loop when the dial succeeds. -/
theorem establishSSH.loop_ok (r : Remote) (ip : String) (c : Nat) (s : St)
    (hd : r.dial s.dials = none) :
    establishSSH.loop r ip c s =
      (Except.ok ⟨s.dials⟩,
        { s with dials := s.dials + 1,
                 trace := s.trace ++ [Action.dial "tcp" (ip ++ ":22")] }) := by
  rw [establishSSH.loop]
  simp only [hd]

/-- The loop, after `k` failed dials with tries remaining and then a success. -/
theorem establishSSH.loop_success_after (r : Remote) (ip : String) :
    ∀ (k c : Nat) (s : St), c + k ≤ maxTries →
      (∀ j, j < k → r.dial (s.dials + j) ≠ none) → r.dial (s.dials + k) = none →
      establishSSH.loop r ip c s =
        (Except.ok ⟨s.dials + k⟩,
          { s with dials := s.dials + k + 1,
                   trace := s.trace ++ (retryTrace (ip ++ ":22") k
                              ++ [Action.dial "tcp" (ip ++ ":22")]) }) := by
  intro k
  induction k with
  | zero =>
    intro c s _ _ hok
    rw [establishSSH.loop_ok r ip c s (by simpa using hok)]
    simp [retryTrace]
  | succ k ih =>
    intro c s hck hfail hok
    have h0 : r.dial s.dials ≠ none := by simpa using hfail 0 (Nat.succ_pos k)
    obtain ⟨e, he⟩ := Option.ne_none_iff_exists'.mp h0
    rw [establishSSH.loop_fail_retry r ip c s e he (by omega)]
    rw [ih (c + 1) _ (by omega)
      (by
        intro j hj
        have := hfail (j + 1) (by omega)
        simpa [Nat.add_assoc, Nat.add_comm 1 j] using this)
      (by simpa [Nat.add_assoc, Nat.add_comm 1 k] using hok)]
    simp [retryTrace, Nat.add_assoc, Nat.add_comm 1 k]

/-- The loop, when the dials keep failing until the tries are used up. -/
theorem establishSSH.loop_exhaust (r : Remote) (ip : String) :
    ∀ (k c : Nat) (s : St), c + k = maxTries →
      (∀ j, j ≤ k → r.dial (s.dials + j) ≠ none) →
      ∃ e, r.dial (s.dials + k) = some e ∧
      establishSSH.loop r ip c s =
        (Except.error (GoError.errorf "failed to dial SSH: %w after %d attempts" [] [((c + k : Nat) : Int)] e),
          { s with dials := s.dials + k + 1,
                   trace := s.trace ++ (retryTrace (ip ++ ":22") k
                              ++ [Action.dial "tcp" (ip ++ ":22")]) }) := by
  intro k
  induction k with
  | zero =>
    intro c s hck hfail
    have h0 : r.dial s.dials ≠ none := by simpa using hfail 0 (Nat.le_refl 0)
    obtain ⟨e, he⟩ := Option.ne_none_iff_exists'.mp h0
    refine ⟨e, by simpa using he, ?_⟩
    rw [establishSSH.loop_fail_last r ip c s e he (by omega)]
    simp [retryTrace]
  | succ k ih =>
    intro c s hck hfail
    have h0 : r.dial s.dials ≠ none := by simpa using hfail 0 (Nat.zero_le _)
    obtain ⟨e, he⟩ := Option.ne_none_iff_exists'.mp h0
    obtain ⟨e2, he2, hloop⟩ := ih (c + 1)
      { s with dials := s.dials + 1,
               trace := s.trace ++ [Action.dial "tcp" (ip ++ ":22")] ++ [Action.sleep 5] }
      (by omega)
      (by
        intro j hj
        have := hfail (j + 1) (by omega)
        simpa [Nat.add_assoc, Nat.add_comm 1 j] using this)
    refine ⟨e2, by simpa [Nat.add_assoc, Nat.add_comm 1 k] using he2, ?_⟩
    rw [establishSSH.loop_fail_retry r ip c s e he (by omega), hloop]
    simp [retryTrace, Nat.add_assoc, Nat.add_comm 1 k]

/-- Dials in a retry trace. -/
theorem dialCount_retryTrace (addr : String) (k : Nat) :
    dialCount (retryTrace addr k ++ [Action.dial "tcp" addr]) = k + 1 := by
  induction k with
  | zero => simp [retryTrace, dialCount]
  | succ k ih =>
    simp [retryTrace, dialCount, List.filter_cons] at ih ⊢
    exact ih

/-- Sleeps in a retry trace. -/
theorem sleepCount_retryTrace (addr : String) (k : Nat) :
    sleepCount (retryTrace addr k ++ [Action.dial "tcp" addr]) = k := by
  induction k with
  | zero => simp [retryTrace, sleepCount]
  | succ k ih =>
    simp [retryTrace, sleepCount, List.filter_cons] at ih ⊢
    exact ih

/-- Seconds slept in a retry trace. -/
theorem sleepSeconds_retryTrace (addr : String) (k : Nat) :
    sleepSeconds (retryTrace addr k ++ [Action.dial "tcp" addr]) = 5 * k := by
  induction k with
  | zero => simp [retryTrace, sleepSeconds]
  | succ k ih => simp [retryTrace, sleepSeconds, ih]; omega

end common

namespace common

/-- Whatever the dials do, `establishSSH` either finds the first successful dial among the
first `maxTries + 1` or uses all of them up. -/
theorem establishSSH.loop_cases (r : Remote) (s : St) :
    (∃ k, k ≤ maxTries ∧ (∀ j, j < k → r.dial (s.dials + j) ≠ none) ∧ r.dial (s.dials + k) = none) ∨
    (∀ j, j ≤ maxTries → r.dial (s.dials + j) ≠ none) := by
  by_cases h : ∃ k, k ≤ maxTries ∧ r.dial (s.dials + k) = none
  · left
    classical
    refine ⟨Nat.find h, (Nat.find_spec h).1, ?_, (Nat.find_spec h).2⟩
    intro j hj hnone
    exact Nat.find_min h hj ⟨by have := (Nat.find_spec h).1; omega, hnone⟩
  · right
    intro j hj hnone
    exact h ⟨j, hj, hnone⟩

/-- Claim C3. With a private key that parses, `establishSSH` makes at most 11 dials. If the
first dial to succeed is the one after `k` failures (`k < 11`, so attempt `k + 1`), it returns
that client after exactly `k + 1` dials, each failed dial being followed by one sleep of 5
seconds (`k` sleeps). If the first 11 dials all fail, it returns an error after exactly 11
dials and 10 sleeps (50 seconds), the last action being the 11th dial. -/
theorem establishSSH_retry_policy (r : Remote) (ip privateKey username : String)
    (hkey : r.parsePrivateKey privateKey = none) :
    dialCount (establishSSH r ip privateKey username St.init).2.trace ≤ 11 ∧
    (∀ k, k < 11 → (∀ j, j < k → r.dial j ≠ none) → r.dial k = none →
      (establishSSH r ip privateKey username St.init).1 = Except.ok ⟨k⟩ ∧
      (establishSSH r ip privateKey username St.init).2.trace =
        retryTrace (ip ++ ":22") k ++ [Action.dial "tcp" (ip ++ ":22")] ∧
      dialCount (establishSSH r ip privateKey username St.init).2.trace = k + 1 ∧
      sleepCount (establishSSH r ip privateKey username St.init).2.trace = k ∧
      sleepSeconds (establishSSH r ip privateKey username St.init).2.trace = 5 * k) ∧
    ((∀ j, j < 11 → r.dial j ≠ none) →
      (∃ e, (establishSSH r ip privateKey username St.init).1 = Except.error e) ∧
      (establishSSH r ip privateKey username St.init).2.trace =
        retryTrace (ip ++ ":22") 10 ++ [Action.dial "tcp" (ip ++ ":22")] ∧
      dialCount (establishSSH r ip privateKey username St.init).2.trace = 11 ∧
      sleepCount (establishSSH r ip privateKey username St.init).2.trace = 10 ∧
      sleepSeconds (establishSSH r ip privateKey username St.init).2.trace = 50) := by
  have hE : establishSSH r ip privateKey username St.init = establishSSH.loop r ip 0 St.init := by
    simp [establishSSH, hkey]
  have hok : ∀ k, k < 11 → (∀ j, j < k → r.dial j ≠ none) → r.dial k = none →
      establishSSH r ip privateKey username St.init =
        (Except.ok ⟨k⟩,
          ⟨k + 1, 0, 0, retryTrace (ip ++ ":22") k ++ [Action.dial "tcp" (ip ++ ":22")]⟩) := by
    intro k hk hfail hnone
    rw [hE, establishSSH.loop_success_after r ip k 0 St.init (by simp [maxTries]; omega)
      (by simpa [St.init] using hfail) (by simpa [St.init] using hnone)]
    simp [St.init]
  have hbad : (∀ j, j < 11 → r.dial j ≠ none) → ∃ e,
      establishSSH r ip privateKey username St.init =
        (Except.error e,
          ⟨11, 0, 0, retryTrace (ip ++ ":22") 10 ++ [Action.dial "tcp" (ip ++ ":22")]⟩) := by
    intro hall
    obtain ⟨e, -, hloop⟩ := establishSSH.loop_exhaust r ip 10 0 St.init (by simp [maxTries])
      (by intro j hj; simpa [St.init] using hall j (by omega))
    refine ⟨GoError.errorf "failed to dial SSH: %w after %d attempts" [] [10] e, ?_⟩
    rw [hE, hloop]; simp [St.init]
  refine ⟨?_, ?_, ?_⟩
  · rcases establishSSH.loop_cases r St.init with ⟨k, hk, hfail, hnone⟩ | hall
    · rw [hok k (by simp [maxTries] at hk; omega) (by simpa [St.init] using hfail)
        (by simpa [St.init] using hnone)]
      simp only [dialCount_retryTrace]
      simp [maxTries] at hk; omega
    · obtain ⟨e, he⟩ := hbad (by
        intro j hj
        simpa [St.init] using hall j (by simp [maxTries]; omega))
      rw [he]
      simp only [dialCount_retryTrace]
      omega
  · intro k hk hfail hnone
    rw [hok k hk hfail hnone]
    exact ⟨rfl, rfl, dialCount_retryTrace _ k, sleepCount_retryTrace _ k,
      sleepSeconds_retryTrace _ k⟩
  · intro hall
    obtain ⟨e, he⟩ := hbad hall
    rw [he]
    exact ⟨⟨e, rfl⟩, rfl, dialCount_retryTrace _ 10, sleepCount_retryTrace _ 10,
      sleepSeconds_retryTrace _ 10⟩

end common

namespace common

/-- Witness for `establishSSH_retry_policy`: two refused dials, then a connection. -/
theorem establishSSH_retry_policy_witness :
    (sampleRemote 2 none "" sampleFile).parsePrivateKey "key" = none ∧
    (establishSSH (sampleRemote 2 none "" sampleFile) "203.0.113.5" "key" "root" St.init).1
      = Except.ok ⟨2⟩ ∧
    dialCount (establishSSH (sampleRemote 2 none "" sampleFile) "203.0.113.5" "key" "root"
      St.init).2.trace = 3 ∧
    sleepSeconds (establishSSH (sampleRemote 2 none "" sampleFile) "203.0.113.5" "key" "root"
      St.init).2.trace = 10 :=
  have h := (establishSSH_retry_policy (sampleRemote 2 none "" sampleFile) "203.0.113.5" "key"
    "root" rfl).2.1 2 (by decide)
    (by intro j hj; interval_cases j <;> simp [sampleRemote]) (by simp [sampleRemote])
  ⟨rfl, h.1, h.2.2.1, h.2.2.2.2⟩

end common

namespace common

/-- A successful `establishSSH` leaves the session and command counters alone and adds only
dials and sleeps to the trace. -/
theorem establishSSH_ok_shape (r : Remote) (ip privateKey username : String) (s s1 : St)
    (client : Client) (h : establishSSH r ip privateKey username s = (Except.ok client, s1)) :
    ∃ k, k ≤ maxTries ∧ client = ⟨s.dials + k⟩ ∧
      s1 = ⟨s.dials + k + 1, s.sessions, s.runs,
        s.trace ++ (retryTrace (ip ++ ":22") k ++ [Action.dial "tcp" (ip ++ ":22")])⟩ := by
  unfold establishSSH at h
  cases hk : r.parsePrivateKey privateKey with
  | some err => simp [hk] at h
  | none =>
    simp only [hk] at h
    rcases establishSSH.loop_cases r s with ⟨k, hk, hfail, hnone⟩ | hall
    · rw [establishSSH.loop_success_after r ip k 0 s (by omega) hfail hnone] at h
      refine ⟨k, hk, ?_, ?_⟩
      · have := congrArg Prod.fst h
        simp only [Except.ok.injEq] at this
        exact this.symm
      · exact (congrArg Prod.snd h).symm
    · obtain ⟨e, -, hloop⟩ := establishSSH.loop_exhaust r ip maxTries 0 s (by omega) hall
      rw [hloop] at h
      simp at h

/-- The result of `runSSHCommand` depends on the state only through the two counters. -/
theorem runSSHCommand_fst (r : Remote) (c : Client) (cmd : String) (s : St)
    (h : s.sessions = s.runs) :
    (runSSHCommand r c cmd s).1 = commandOutcome r s.runs cmd := by
  unfold commandOutcome runSSHCommand
  simp only [h]
  cases r.newSession s.runs with
  | some err => rfl
  | none =>
    simp only
    cases (r.combinedOutput s.runs cmd).err <;> rfl

/-- A command that succeeds opens a session, runs and closes the session. -/
theorem runSSHCommand_ok (r : Remote) (c : Client) (cmd : String) (s : St) (out : String)
    (h : s.sessions = s.runs) (ho : commandOutcome r s.runs cmd = Except.ok out) :
    runSSHCommand r c cmd s =
      (Except.ok out, ⟨s.dials, s.sessions + 1, s.runs + 1, s.trace ++ commandTrace cmd⟩) := by
  unfold commandOutcome runSSHCommand at ho
  unfold runSSHCommand
  simp only [h] at ho ⊢
  cases hs : r.newSession s.runs with
  | some err => simp [hs] at ho
  | none =>
    simp only [hs] at ho ⊢
    cases he : (r.combinedOutput s.runs cmd).err with
    | some err => simp [he] at ho
    | none =>
      simp only [he] at ho ⊢
      simp only [Except.ok.injEq] at ho
      simp [ho, commandTrace]

/-- A command that fails either could not open its session, or ran and returned an error that
wraps the error of `CombinedOutput` and holds the command text. -/
theorem runSSHCommand_error (r : Remote) (c : Client) (cmd : String) (s : St) (e : GoError)
    (h : s.sessions = s.runs) (ho : commandOutcome r s.runs cmd = Except.error e) :
    (∃ e0, r.newSession s.runs = some e0 ∧
      e = GoError.errorf "failed to create SSH session: %w" [] [] e0 ∧
      runSSHCommand r c cmd s =
        (Except.error e, ⟨s.dials, s.sessions + 1, s.runs, s.trace ++ [Action.newSession]⟩)) ∨
    (∃ e1, r.newSession s.runs = none ∧ (r.combinedOutput s.runs cmd).err = some e1 ∧
      e = GoError.errorf "failed to run command %q: %w" [cmd] [] e1 ∧
      runSSHCommand r c cmd s =
        (Except.error e, ⟨s.dials, s.sessions + 1, s.runs + 1, s.trace ++ commandTrace cmd⟩)) := by
  unfold commandOutcome runSSHCommand at ho
  unfold runSSHCommand
  simp only [h] at ho ⊢
  cases hs : r.newSession s.runs with
  | some err =>
    left
    simp only [hs] at ho
    simp only [Except.error.injEq] at ho
    exact ⟨err, rfl, ho.symm, by simp [ho]⟩
  | none =>
    right
    simp only [hs] at ho
    cases he : (r.combinedOutput s.runs cmd).err with
    | none => simp [he] at ho
    | some err =>
      simp only [he] at ho
      simp only [Except.error.injEq] at ho
      exact ⟨err, rfl, rfl, ho.symm, by simp [ho, commandTrace]⟩

/-- The command loop over a concatenation. -/
theorem InstallServer.runCommands_append (r : Remote) (c : Client) :
    ∀ (pre rest : List String) (s : St),
      InstallServer.runCommands r c (pre ++ rest) s =
        match InstallServer.runCommands r c pre s with
        | (some e, s1) => (some e, s1)
        | (none, s1) => InstallServer.runCommands r c rest s1 := by
  intro pre
  induction pre with
  | nil => intro rest s; simp [InstallServer.runCommands]
  | cons cmd pre ih =>
    intro rest s
    simp only [List.cons_append, InstallServer.runCommands]
    rcases hrun : runSSHCommand r c cmd s with ⟨res, s1⟩
    cases res with
    | error e => simp
    | ok out => simp [ih]

/-- The command loop when every command succeeds. -/
theorem InstallServer.runCommands_all_ok (r : Remote) (c : Client) :
    ∀ (cmds : List String) (s : St), s.sessions = s.runs →
      (∀ i cmd, cmds[i]? = some cmd → ∃ out, commandOutcome r (s.runs + i) cmd = Except.ok out) →
      InstallServer.runCommands r c cmds s =
        (none, ⟨s.dials, s.sessions + cmds.length, s.runs + cmds.length,
          s.trace ++ cmds.flatMap commandTrace⟩) := by
  intro cmds
  induction cmds with
  | nil => intro s _ _; simp [InstallServer.runCommands]
  | cons cmd cmds ih =>
    intro s hs hall
    obtain ⟨out, hout⟩ := hall 0 cmd (by simp)
    simp only [InstallServer.runCommands]
    rw [runSSHCommand_ok r c cmd s out hs (by simpa using hout)]
    simp only
    rw [ih _ (by simp [hs])
      (by
        intro i cmd2 hi
        have := hall (i + 1) cmd2 (by simpa using hi)
        simpa [Nat.add_assoc, Nat.add_comm 1 i] using this)]
    simp [Nat.add_assoc, Nat.add_comm 1 cmds.length]

/-- Commands handed to `CombinedOutput`, over a concatenation of traces. -/
theorem attempted_append (t u : List Action) : attempted (t ++ u) = attempted t ++ attempted u := by
  induction t with
  | nil => simp [attempted]
  | cons a t ih => cases a <;> simp [attempted, ih]

/-- Sessions opened, over a concatenation of traces. -/
theorem sessionCount_append (t u : List Action) :
    sessionCount (t ++ u) = sessionCount t + sessionCount u := by
  simp [sessionCount, List.filter_append]

/-- A retry trace runs no command. -/
theorem attempted_retryTrace (addr : String) (k : Nat) :
    attempted (retryTrace addr k ++ [Action.dial "tcp" addr]) = [] := by
  induction k with
  | zero => simp [retryTrace, attempted]
  | succ k ih => simpa [retryTrace, attempted] using ih

/-- A retry trace opens no session. -/
theorem sessionCount_retryTrace (addr : String) (k : Nat) :
    sessionCount (retryTrace addr k ++ [Action.dial "tcp" addr]) = 0 := by
  induction k with
  | zero => simp [retryTrace, sessionCount]
  | succ k ih =>
    simp [retryTrace, sessionCount, List.filter_cons] at ih ⊢
    exact ih

/-- The commands run by a sequence of successful commands. -/
theorem attempted_flatMap_commandTrace (cmds : List String) :
    attempted (cmds.flatMap commandTrace) = cmds := by
  induction cmds with
  | nil => simp [attempted]
  | cons c cmds ih =>
    rw [List.flatMap_cons, attempted_append, ih]
    simp [commandTrace, attempted]

/-- The sessions opened by a sequence of successful commands. -/
theorem sessionCount_flatMap_commandTrace (cmds : List String) :
    sessionCount (cmds.flatMap commandTrace) = cmds.length := by
  induction cmds with
  | nil => simp [sessionCount]
  | cons c cmds ih =>
    rw [List.flatMap_cons, sessionCount_append, ih]
    simp [commandTrace, sessionCount, List.filter_cons]
    omega

end common

namespace common

/-- Either every command of a list succeeds, or the list splits at its first failing command. -/
theorem commandOutcome_cases (r : Remote) :
    ∀ (cmds : List String) (n : Nat),
      (∀ i cmd, cmds[i]? = some cmd → ∃ out, commandOutcome r (n + i) cmd = Except.ok out) ∨
      (∃ pre cmd post e, cmds = pre ++ cmd :: post ∧
        (∀ i c, pre[i]? = some c → ∃ out, commandOutcome r (n + i) c = Except.ok out) ∧
        commandOutcome r (n + pre.length) cmd = Except.error e) := by
  intro cmds
  induction cmds with
  | nil => intro n; left; intro i cmd h; simp at h
  | cons cmd cmds ih =>
    intro n
    cases h0 : commandOutcome r n cmd with
    | error e =>
      right
      exact ⟨[], cmd, cmds, e, rfl, by intro i c h; simp at h, by simpa using h0⟩
    | ok out =>
      rcases ih (n + 1) with hall | ⟨pre, c2, post, e, hsplit, hpre, hfail⟩
      · left
        intro i c hi
        cases i with
        | zero =>
          simp only [List.getElem?_cons_zero, Option.some.injEq] at hi
          subst hi
          exact ⟨out, by simpa using h0⟩
        | succ i =>
          have := hall i c (by simpa using hi)
          simpa [Nat.add_assoc, Nat.add_comm 1 i] using this
      · right
        refine ⟨cmd :: pre, c2, post, e, by simp [hsplit], ?_, ?_⟩
        · intro i c hi
          cases i with
          | zero =>
            simp only [List.getElem?_cons_zero, Option.some.injEq] at hi
            subst hi
            exact ⟨out, by simpa using h0⟩
          | succ i =>
            have := hpre i c (by simpa using hi)
            simpa [Nat.add_assoc, Nat.add_comm 1 i] using this
        · simpa [Nat.add_assoc, Nat.add_comm 1 pre.length] using hfail

/-- The installer when the connection is made, the commands before `cmd` succeed and `cmd`
fails: the error of `cmd` comes back, nothing runs after it but the deferred close. -/
theorem InstallServer_command_failure (r : Remote) (j : Json) (ip privateKey username : String)
    (client : Client) (s1 : St) (pre : List String) (cmd : String) (post : List String)
    (e : GoError)
    (hconn : establishSSH r ip privateKey username St.init = (Except.ok client, s1))
    (hsplit : InstallServer.commands = pre ++ cmd :: post)
    (hprev : ∀ i c, pre[i]? = some c → ∃ out, commandOutcome r i c = Except.ok out)
    (hfail : commandOutcome r pre.length cmd = Except.error e) :
    (InstallServer r j ip privateKey username St.init).1 = Except.error e ∧
    ((r.newSession pre.length = none ∧
        (InstallServer r j ip privateKey username St.init).2.trace =
          s1.trace ++ pre.flatMap commandTrace ++ commandTrace cmd ++ [Action.clientClose]) ∨
     (r.newSession pre.length ≠ none ∧
        (InstallServer r j ip privateKey username St.init).2.trace =
          s1.trace ++ pre.flatMap commandTrace ++ [Action.newSession] ++ [Action.clientClose])) := by
  obtain ⟨k, -, -, hs1⟩ := establishSSH_ok_shape r ip privateKey username St.init s1 client hconn
  have hsr : s1.sessions = s1.runs := by rw [hs1]; rfl
  have hr0 : s1.runs = 0 := by rw [hs1]; rfl
  have hs0 : s1.sessions = 0 := by rw [hs1]; rfl
  have hpre := InstallServer.runCommands_all_ok r client pre s1 hsr
    (by intro i c hi; simpa [hr0] using hprev i c hi)
  have hstate : (⟨s1.dials, s1.sessions + pre.length, s1.runs + pre.length,
      s1.trace ++ pre.flatMap commandTrace⟩ : St).sessions
      = (⟨s1.dials, s1.sessions + pre.length, s1.runs + pre.length,
      s1.trace ++ pre.flatMap commandTrace⟩ : St).runs := by simp [hsr]
  have hrun := runSSHCommand_error r client cmd
    ⟨s1.dials, s1.sessions + pre.length, s1.runs + pre.length, s1.trace ++ pre.flatMap commandTrace⟩
    e hstate (by simpa [hr0] using hfail)
  unfold InstallServer
  rw [hconn]
  simp only
  rw [hsplit, InstallServer.runCommands_append, hpre]
  simp only [InstallServer.runCommands]
  rcases hrun with ⟨e0, hns, -, heq⟩ | ⟨e1, hns, -, -, heq⟩
  · rw [heq]
    simp only [hr0, Nat.zero_add] at hns
    exact ⟨rfl, Or.inr ⟨by simp [hns], by simp⟩⟩
  · rw [heq]
    simp only [hr0, Nat.zero_add] at hns
    exact ⟨rfl, Or.inl ⟨hns, by simp⟩⟩

/-- The number of bootstrap commands. -/
theorem InstallServer.commands_length : InstallServer.commands.length = 7 := rfl

/-- The installer when the connection is made and the seven commands succeed: it sleeps five
seconds, reads the file, and returns what the read and the parse give. -/
theorem InstallServer_after_commands (r : Remote) (j : Json) (ip privateKey username : String)
    (client : Client) (s1 : St)
    (hconn : establishSSH r ip privateKey username St.init = (Except.ok client, s1))
    (hall : ∀ i c, InstallServer.commands[i]? = some c →
      ∃ out, commandOutcome r i c = Except.ok out) :
    (∀ e, commandOutcome r 7 InstallServer.readCommand = Except.error e →
      (InstallServer r j ip privateKey username St.init).1 =
        Except.error (GoError.errorf "failed to read config file: %w" [] [] e)) ∧
    (∀ out, commandOutcome r 7 InstallServer.readCommand = Except.ok out →
      (InstallServer r j ip privateKey username St.init).1 =
        (match j.Unmarshal out with
          | Except.error err =>
            Except.error (GoError.errorf "failed to parse config file: %w" [] [] err)
          | Except.ok config => Except.ok config) ∧
      (InstallServer r j ip privateKey username St.init).2.trace =
        s1.trace ++ InstallServer.commands.flatMap commandTrace ++ [Action.sleep 5]
          ++ commandTrace InstallServer.readCommand ++ [Action.clientClose]) := by
  obtain ⟨k, -, -, hs1⟩ := establishSSH_ok_shape r ip privateKey username St.init s1 client hconn
  have hsr : s1.sessions = s1.runs := by rw [hs1]; rfl
  have hr0 : s1.runs = 0 := by rw [hs1]; rfl
  have hs0 : s1.sessions = 0 := by rw [hs1]; rfl
  have hcmds := InstallServer.runCommands_all_ok r client InstallServer.commands s1 hsr
    (by intro i c hi; simpa [hr0] using hall i c hi)
  rw [InstallServer.commands_length, hr0, hs0] at hcmds
  constructor
  · intro e he
    have hrun := runSSHCommand_error r client InstallServer.readCommand
      ⟨s1.dials, 0 + 7, 0 + 7,
        s1.trace ++ InstallServer.commands.flatMap commandTrace ++ [Action.sleep 5]⟩
      e rfl (by simpa using he)
    unfold InstallServer
    rw [hconn]
    simp only
    rw [hcmds]
    simp only
    rcases hrun with ⟨e0, -, -, heq⟩ | ⟨e1, -, -, -, heq⟩ <;> rw [heq]
  · intro out hout
    have hrun := runSSHCommand_ok r client InstallServer.readCommand
      ⟨s1.dials, 0 + 7, 0 + 7,
        s1.trace ++ InstallServer.commands.flatMap commandTrace ++ [Action.sleep 5]⟩
      out rfl (by simpa using hout)
    unfold InstallServer
    rw [hconn]
    simp only
    rw [hcmds]
    simp only
    rw [hrun]
    simp only
    cases j.Unmarshal out with
    | error err => exact ⟨rfl, rfl⟩
    | ok config => exact ⟨rfl, rfl⟩

/-- The installer when the connection cannot be made: the error is wrapped and nothing runs. -/
theorem InstallServer_no_connection (r : Remote) (j : Json) (ip privateKey username : String)
    (e : GoError) (s1 : St)
    (hconn : establishSSH r ip privateKey username St.init = (Except.error e, s1)) :
    InstallServer r j ip privateKey username St.init =
      (Except.error (GoError.errorf "failed to establish SSH connection: %w" [] [] e), s1) := by
  unfold InstallServer
  rw [hconn]

end common

namespace common

/-- A list splits around any of its elements. -/
theorem split_at_index (l : List String) (k : Nat) (cmd : String) (hk : l[k]? = some cmd) :
    l = l.take k ++ cmd :: l.drop (k + 1) ∧ (l.take k).length = k := by
  obtain ⟨hlt, hget⟩ := List.getElem?_eq_some.mp hk
  refine ⟨?_, by simp; omega⟩
  conv_lhs => rw [← List.take_append_drop k l]
  rw [List.drop_eq_getElem_cons hlt, hget]

/-- An element of a prefix is the element of the list at an index below the cut. -/
theorem getElem?_take_some (l : List String) (k i : Nat) (c : String)
    (h : (l.take k)[i]? = some c) : i < k ∧ l[i]? = some c := by
  by_cases hik : i < k
  · exact ⟨hik, by rwa [List.getElem?_take_of_lt hik] at h⟩
  · rw [List.getElem?_eq_none (by simp; omega)] at h
    simp at h

/-- The bootstrap commands are pairwise different. -/
theorem InstallServer.commands_nodup : InstallServer.commands.Nodup := by decide

/-- The read of the configuration file is not one of the bootstrap commands. -/
theorem InstallServer.readCommand_not_mem :
    InstallServer.readCommand ∉ InstallServer.commands := by decide

/-- Claim C2. With the connection made, if the commands before the one with index `k`
(counted from 0) succeed and that command fails with error `e`, then `InstallServer` returns
no configuration but `e`; exactly `k + 1` commands were attempted (sessions opened); the
commands handed to the remote shell are the first `k + 1` of the list, in order (the first `k`
if the session of the failing one did not open); no later command and no read of the
configuration file was attempted. -/
theorem InstallServer_fail_fast (r : Remote) (j : Json) (ip privateKey username : String)
    (client : Client) (s1 : St) (k : Nat) (cmd : String) (e : GoError)
    (hconn : establishSSH r ip privateKey username St.init = (Except.ok client, s1))
    (hk : InstallServer.commands[k]? = some cmd)
    (hprev : ∀ i c, i < k → InstallServer.commands[i]? = some c →
      ∃ out, commandOutcome r i c = Except.ok out)
    (hfail : commandOutcome r k cmd = Except.error e) :
    (InstallServer r j ip privateKey username St.init).1 = Except.error e ∧
    sessionCount (InstallServer r j ip privateKey username St.init).2.trace = k + 1 ∧
    (r.newSession k = none →
      attempted (InstallServer r j ip privateKey username St.init).2.trace
        = InstallServer.commands.take (k + 1)) ∧
    (r.newSession k ≠ none →
      attempted (InstallServer r j ip privateKey username St.init).2.trace
        = InstallServer.commands.take k) ∧
    (∀ c, c ∈ InstallServer.commands.drop (k + 1) →
      c ∉ attempted (InstallServer r j ip privateKey username St.init).2.trace) ∧
    InstallServer.readCommand ∉
      attempted (InstallServer r j ip privateKey username St.init).2.trace := by
  obtain ⟨hsplit, hlen⟩ := split_at_index InstallServer.commands k cmd hk
  obtain ⟨n, -, -, hs1⟩ := establishSSH_ok_shape r ip privateKey username St.init s1 client hconn
  have htr : s1.trace = retryTrace (ip ++ ":22") n ++ [Action.dial "tcp" (ip ++ ":22")] := by
    rw [hs1]; simp [St.init]
  have ha : attempted s1.trace = [] := by rw [htr]; exact attempted_retryTrace _ n
  have hsc : sessionCount s1.trace = 0 := by rw [htr]; exact sessionCount_retryTrace _ n
  have htake : InstallServer.commands.take (k + 1) = InstallServer.commands.take k ++ [cmd] := by
    conv_lhs => rw [hsplit]
    rw [List.take_append_eq_append_take]
    simp [hlen]
  obtain ⟨hres, htrace⟩ := InstallServer_command_failure r j ip privateKey username client s1
    (InstallServer.commands.take k) cmd (InstallServer.commands.drop (k + 1)) e hconn hsplit
    (by
      intro i c hi
      obtain ⟨hik, hc⟩ := getElem?_take_some _ _ _ _ hi
      exact hprev i c hik hc)
    (by rw [hlen]; exact hfail)
  rw [hlen] at htrace
  have hsub : ∀ c, c ∈ attempted (InstallServer r j ip privateKey username St.init).2.trace →
      c ∈ InstallServer.commands.take (k + 1) := by
    intro c hc
    rcases htrace with ⟨-, ht⟩ | ⟨-, ht⟩
    · rw [ht] at hc
      simp only [attempted_append, ha, attempted_flatMap_commandTrace, List.nil_append] at hc
      simpa [htake, commandTrace, attempted] using hc
    · rw [ht] at hc
      simp only [attempted_append, ha, attempted_flatMap_commandTrace, List.nil_append] at hc
      rw [htake]
      simp only [attempted, List.append_nil] at hc
      exact List.mem_append_left _ hc
  refine ⟨hres, ?_, ?_, ?_, ?_, ?_⟩
  · rcases htrace with ⟨-, ht⟩ | ⟨-, ht⟩
    · rw [ht]
      simp only [sessionCount_append, hsc, sessionCount_flatMap_commandTrace, hlen]
      simp [commandTrace, sessionCount, List.filter_cons]
    · rw [ht]
      simp only [sessionCount_append, hsc, sessionCount_flatMap_commandTrace, hlen]
      simp [sessionCount, List.filter_cons]
  · intro hns
    rcases htrace with ⟨-, ht⟩ | ⟨hne, -⟩
    · rw [ht]
      simp only [attempted_append, ha, attempted_flatMap_commandTrace, List.nil_append]
      simp [htake, commandTrace, attempted]
    · exact absurd hns hne
  · intro hns
    rcases htrace with ⟨hn, -⟩ | ⟨-, ht⟩
    · exact absurd hn hns
    · rw [ht]
      simp only [attempted_append, ha, attempted_flatMap_commandTrace, List.nil_append]
      simp [attempted]
  · intro c hc hatt
    have hnd := InstallServer.commands_nodup
    rw [← List.take_append_drop (k + 1) InstallServer.commands] at hnd
    exact (List.nodup_append.mp hnd).2.2 (hsub c hatt) hc
  · intro hatt
    exact InstallServer.readCommand_not_mem (List.mem_of_mem_take (hsub _ hatt))

end common

namespace common

/-- The sample remote with no refused dial connects at once. -/
theorem sampleRemote_connects (failing : Option Nat) (out file ip privateKey username : String) :
    establishSSH (sampleRemote 0 failing out file) ip privateKey username St.init =
      (Except.ok ⟨0⟩, ⟨1, 0, 0, [Action.dial "tcp" (ip ++ ":22")]⟩) := by
  unfold establishSSH
  simp only [sampleRemote]
  rw [establishSSH.loop_ok _ ip 0 St.init (by simp [St.init])]
  simp [St.init]

/-- On the sample remote a command other than the failing one succeeds. -/
theorem sampleRemote_command_ok (failing : Option Nat) (out file : String) (i : Nat)
    (cmd : String) (h : failing ≠ some i) :
    ∃ o, commandOutcome (sampleRemote 0 failing out file) i cmd = Except.ok o := by
  unfold commandOutcome runSSHCommand
  simp only [sampleRemote, h, if_false]
  by_cases hc : cmd = InstallServer.readCommand
  · exact ⟨file, by simp [hc]⟩
  · exact ⟨"", by simp [hc]⟩

/-- On the sample remote the failing command returns the wrapped exit error. -/
theorem sampleRemote_command_fails (out file : String) (i : Nat) (cmd : String) :
    commandOutcome (sampleRemote 0 (some i) out file) i cmd =
      Except.error (GoError.errorf "failed to run command %q: %w" [cmd] []
        (GoError.new "Process exited with status 100")) := by
  unfold commandOutcome runSSHCommand
  simp [sampleRemote]

/-- Witness for `InstallServer_fail_fast`: the third command fails. -/
theorem InstallServer_fail_fast_witness :
    (InstallServer (sampleRemote 0 (some 2) "E: no network" sampleFile) sampleJson "203.0.113.5"
        "key" "root" St.init).1 =
      Except.error (GoError.errorf "failed to run command %q: %w" ["sudo apt-get update -y -q"] []
        (GoError.new "Process exited with status 100")) ∧
    sessionCount (InstallServer (sampleRemote 0 (some 2) "E: no network" sampleFile) sampleJson
        "203.0.113.5" "key" "root" St.init).2.trace = 3 ∧
    attempted (InstallServer (sampleRemote 0 (some 2) "E: no network" sampleFile) sampleJson
        "203.0.113.5" "key" "root" St.init).2.trace =
      ["sudo cloud-init status --wait",
       "sudo sh -c \x27echo deb [trusted=yes] https://apt.fury.io/getlantern/ / > /etc/apt/sources.list.d/getlantern.list\x27",
       "sudo apt-get update -y -q"] :=
  have h := InstallServer_fail_fast (sampleRemote 0 (some 2) "E: no network" sampleFile) sampleJson
    "203.0.113.5" "key" "root" ⟨0⟩ ⟨1, 0, 0, [Action.dial "tcp" ("203.0.113.5" ++ ":22")]⟩ 2
    "sudo apt-get update -y -q" _
    (sampleRemote_connects _ _ _ _ _ _) rfl
    (fun i c hi _ => sampleRemote_command_ok _ _ _ i c (by simp; omega))
    (sampleRemote_command_fails _ _ 2 _)
  ⟨h.1, h.2.1, h.2.2.1 rfl⟩

end common

namespace common

/-- Claim C8. With the connection made, `InstallServer` returns the configuration `cfg` if and
only if the seven bootstrap commands succeed, the read of the configuration file succeeds
and its output parses as `cfg`. In that case the trace is: the seven commands in order, one
sleep of 5 seconds, the read, the deferred close. If the commands succeed, a failed read and
a failed parse each give an error and no configuration. -/
theorem InstallServer_config_iff (r : Remote) (j : Json) (ip privateKey username : String)
    (client : Client) (s1 : St) (cfg : ServerConfiguration)
    (hconn : establishSSH r ip privateKey username St.init = (Except.ok client, s1)) :
    ((InstallServer r j ip privateKey username St.init).1 = Except.ok cfg ↔
      ((∀ i c, InstallServer.commands[i]? = some c → ∃ out, commandOutcome r i c = Except.ok out) ∧
        ∃ out, commandOutcome r 7 InstallServer.readCommand = Except.ok out ∧
          j.Unmarshal out = Except.ok cfg)) ∧
    ((InstallServer r j ip privateKey username St.init).1 = Except.ok cfg →
      (InstallServer r j ip privateKey username St.init).2.trace =
        s1.trace ++ InstallServer.commands.flatMap commandTrace ++ [Action.sleep 5]
          ++ commandTrace InstallServer.readCommand ++ [Action.clientClose]) ∧
    ((∀ i c, InstallServer.commands[i]? = some c → ∃ out, commandOutcome r i c = Except.ok out) →
      (∀ e, commandOutcome r 7 InstallServer.readCommand = Except.error e →
        (InstallServer r j ip privateKey username St.init).1 =
          Except.error (GoError.errorf "failed to read config file: %w" [] [] e)) ∧
      (∀ out e, commandOutcome r 7 InstallServer.readCommand = Except.ok out →
        j.Unmarshal out = Except.error e →
        (InstallServer r j ip privateKey username St.init).1 =
          Except.error (GoError.errorf "failed to parse config file: %w" [] [] e))) := by
  have hback : (∀ i c, InstallServer.commands[i]? = some c →
        ∃ out, commandOutcome r i c = Except.ok out) →
      ∀ out, commandOutcome r 7 InstallServer.readCommand = Except.ok out →
        j.Unmarshal out = Except.ok cfg →
        (InstallServer r j ip privateKey username St.init).1 = Except.ok cfg ∧
        (InstallServer r j ip privateKey username St.init).2.trace =
          s1.trace ++ InstallServer.commands.flatMap commandTrace ++ [Action.sleep 5]
            ++ commandTrace InstallServer.readCommand ++ [Action.clientClose] := by
    intro hall out hout hparse
    obtain ⟨hres, htrace⟩ :=
      (InstallServer_after_commands r j ip privateKey username client s1 hconn hall).2 out hout
    rw [hparse] at hres
    exact ⟨hres, htrace⟩
  have hforth : (InstallServer r j ip privateKey username St.init).1 = Except.ok cfg →
      ((∀ i c, InstallServer.commands[i]? = some c → ∃ out, commandOutcome r i c = Except.ok out) ∧
        ∃ out, commandOutcome r 7 InstallServer.readCommand = Except.ok out ∧
          j.Unmarshal out = Except.ok cfg) := by
    intro hok
    rcases commandOutcome_cases r InstallServer.commands 0 with
      hall | ⟨pre, cmd, post, e, hsplit, hpre, hfail⟩
    · have hall2 : ∀ i c, InstallServer.commands[i]? = some c →
          ∃ out, commandOutcome r i c = Except.ok out := by
        intro i c hi; simpa using hall i c hi
      refine ⟨hall2, ?_⟩
      have hafter := InstallServer_after_commands r j ip privateKey username client s1 hconn hall2
      cases hread : commandOutcome r 7 InstallServer.readCommand with
      | error e =>
        rw [hafter.1 e hread] at hok
        simp at hok
      | ok out =>
        have h2 := (hafter.2 out hread).1
        rw [hok] at h2
        cases hparse : j.Unmarshal out with
        | error e => rw [hparse] at h2; simp at h2
        | ok config =>
          rw [hparse] at h2
          simp only [Except.ok.injEq] at h2
          exact ⟨out, rfl, by rw [h2, hparse]⟩
    · have := (InstallServer_command_failure r j ip privateKey username client s1 pre cmd post e
        hconn hsplit (by intro i c hi; simpa using hpre i c hi) (by simpa using hfail)).1
      rw [this] at hok
      simp at hok
  refine ⟨⟨hforth, ?_⟩, ?_, ?_⟩
  · rintro ⟨hall, out, hout, hparse⟩
    exact (hback hall out hout hparse).1
  · intro hok
    obtain ⟨hall, out, hout, hparse⟩ := hforth hok
    exact (hback hall out hout hparse).2
  · intro hall
    have hafter := InstallServer_after_commands r j ip privateKey username client s1 hconn hall
    refine ⟨hafter.1, ?_⟩
    intro out e hout hparse
    have := (hafter.2 out hout).1
    rw [hparse] at this
    exact this

/-- The outcome of the read on the sample remote. -/
theorem sampleRemote_read (out file : String) (failing : Option Nat) (h : failing ≠ some 7) :
    commandOutcome (sampleRemote 0 failing out file) 7 InstallServer.readCommand
      = Except.ok file := by
  unfold commandOutcome runSSHCommand
  simp [sampleRemote, h]

/-- Witness for `InstallServer_config_iff`: the sample server, nothing failing. -/
theorem InstallServer_config_iff_witness :
    (InstallServer (sampleRemote 0 none "" sampleFile) sampleJson "203.0.113.5" "key" "root"
      St.init).1 = Except.ok sampleConfig :=
  ((InstallServer_config_iff (sampleRemote 0 none "" sampleFile) sampleJson "203.0.113.5" "key"
    "root" ⟨0⟩ ⟨1, 0, 0, [Action.dial "tcp" ("203.0.113.5" ++ ":22")]⟩ sampleConfig
    (sampleRemote_connects _ _ _ _ _ _)).1).2
    ⟨fun i c _ => sampleRemote_command_ok _ _ _ i c (by simp),
      sampleFile, sampleRemote_read _ _ _ (by simp), by simp [sampleJson]⟩

/-- The installer on the sample remote whose third command fails, whatever it prints. -/
theorem sampleRemote_install_third_fails (out file : String) (j : Json)
    (ip privateKey username : String) :
    (InstallServer (sampleRemote 0 (some 2) out file) j ip privateKey username St.init).1 =
      Except.error (GoError.errorf "failed to run command %q: %w" ["sudo apt-get update -y -q"] []
        (GoError.new "Process exited with status 100")) :=
  (InstallServer_command_failure (sampleRemote 0 (some 2) out file) j ip privateKey username ⟨0⟩
    ⟨1, 0, 0, [Action.dial "tcp" (ip ++ ":22")]⟩
    (InstallServer.commands.take 2) "sudo apt-get update -y -q" (InstallServer.commands.drop 3) _
    (sampleRemote_connects _ _ _ _ _ _) rfl
    (fun i c hi => sampleRemote_command_ok _ _ _ i c (by
      have := (getElem?_take_some _ _ _ _ hi).1
      simp; omega))
    (sampleRemote_command_fails _ _ 2 _)).1

/-- The installer on the sample remote with nothing failing returns the sample record. -/
theorem sampleRemote_install_ok (out : String) (ip privateKey username : String) :
    (InstallServer (sampleRemote 0 none out sampleFile) sampleJson ip privateKey username
      St.init).1 = Except.ok sampleConfig := by
  have h := ((InstallServer_after_commands (sampleRemote 0 none out sampleFile) sampleJson ip
    privateKey username ⟨0⟩ ⟨1, 0, 0, [Action.dial "tcp" (ip ++ ":22")]⟩
    (sampleRemote_connects _ _ _ _ _ _)
    (fun i c _ => sampleRemote_command_ok _ _ _ i c (by simp))).2 sampleFile
    (sampleRemote_read _ _ _ (by simp))).1
  rw [h]
  simp [sampleJson]

/-- Counterexample to claim C9 as stated: on two remotes that differ only in what the failing
third command prints, `InstallServer` returns the same failure, which holds the command text
and the exit error but neither output. -/
theorem InstallServer_error_without_output :
    ((sampleRemote 0 (some 2) "E: no network" sampleFile).combinedOutput 2
        "sudo apt-get update -y -q").output = "E: no network" ∧
    ((sampleRemote 0 (some 2) "W: lock held" sampleFile).combinedOutput 2
        "sudo apt-get update -y -q").output = "W: lock held" ∧
    (InstallServer (sampleRemote 0 (some 2) "E: no network" sampleFile) sampleJson "203.0.113.5"
        "key" "root" St.init).1 =
      Except.error (GoError.errorf "failed to run command %q: %w" ["sudo apt-get update -y -q"] []
        (GoError.new "Process exited with status 100")) ∧
    (InstallServer (sampleRemote 0 (some 2) "W: lock held" sampleFile) sampleJson "203.0.113.5"
        "key" "root" St.init).1 =
      (InstallServer (sampleRemote 0 (some 2) "E: no network" sampleFile) sampleJson "203.0.113.5"
        "key" "root" St.init).1 := by
  refine ⟨by simp [sampleRemote], by simp [sampleRemote], ?_, ?_⟩
  · exact sampleRemote_install_third_fails _ _ _ _ _ _
  · rw [sampleRemote_install_third_fails, sampleRemote_install_third_fails]

/-- Claim C9, amended. With the connection made, if the commands before the one with index
`k` succeed, the session of that command opens and `CombinedOutput` returns the error `e1`,
then the failure returned by `InstallServer` is the `fmt.Errorf` value with the format
`failed to run command %q: %w`, the command text as its one string argument and `e1` wrapped:
it is the same whatever the command printed. -/
theorem InstallServer_command_error_value (r : Remote) (j : Json)
    (ip privateKey username : String) (client : Client) (s1 : St) (k : Nat) (cmd : String)
    (e1 : GoError)
    (hconn : establishSSH r ip privateKey username St.init = (Except.ok client, s1))
    (hk : InstallServer.commands[k]? = some cmd)
    (hprev : ∀ i c, i < k → InstallServer.commands[i]? = some c →
      ∃ out, commandOutcome r i c = Except.ok out)
    (hsession : r.newSession k = none)
    (herr : (r.combinedOutput k cmd).err = some e1) :
    (InstallServer r j ip privateKey username St.init).1 =
      Except.error (GoError.errorf "failed to run command %q: %w" [cmd] [] e1) := by
  obtain ⟨hsplit, hlen⟩ := split_at_index InstallServer.commands k cmd hk
  have hfail : commandOutcome r k cmd =
      Except.error (GoError.errorf "failed to run command %q: %w" [cmd] [] e1) := by
    unfold commandOutcome runSSHCommand
    simp [hsession, herr]
  exact (InstallServer_command_failure r j ip privateKey username client s1
    (InstallServer.commands.take k) cmd (InstallServer.commands.drop (k + 1)) _ hconn hsplit
    (by
      intro i c hi
      obtain ⟨hik, hc⟩ := getElem?_take_some _ _ _ _ hi
      exact hprev i c hik hc)
    (by rw [hlen]; exact hfail)).1

/-- Witness for `InstallServer_command_error_value`: the third command exits with status 100. -/
theorem InstallServer_command_error_value_witness :
    (InstallServer (sampleRemote 0 (some 2) "E: no network" sampleFile) sampleJson "203.0.113.5"
        "key" "ubuntu" St.init).1 =
      Except.error (GoError.errorf "failed to run command %q: %w" ["sudo apt-get update -y -q"] []
        (GoError.new "Process exited with status 100")) :=
  InstallServer_command_error_value (sampleRemote 0 (some 2) "E: no network" sampleFile)
    sampleJson "203.0.113.5" "key" "ubuntu" ⟨0⟩
    ⟨1, 0, 0, [Action.dial "tcp" ("203.0.113.5" ++ ":22")]⟩ 2 "sudo apt-get update -y -q"
    (GoError.new "Process exited with status 100")
    (sampleRemote_connects _ _ _ _ _ _) rfl
    (fun i c hi _ => sampleRemote_command_ok _ _ _ i c (by simp; omega))
    rfl (by simp [sampleRemote])

end common

namespace gcp

open common

/-- Claim C1, the failing input. Every collaborator succeeds and the third bootstrap command
fails, so `InstallServer` returns an error: the GCP task sends `ProvisioningStarted` and then
returns without sending `ProvisioningError` or any other terminal event. -/
theorem provision_install_failure_sends_no_terminal_event :
    (InstallServer (sampleRemote 0 (some 2) "E: no network" sampleFile) sampleJson "203.0.113.5"
        "private" "ubuntu" St.init).1 =
      Except.error (GoError.errorf "failed to run command %q: %w" ["sudo apt-get update -y -q"] []
        (GoError.new "Process exited with status 100")) ∧
    Provisioner.Provision (sampleClient ["proj-1"] (fun _ => Except.ok [])) sampleCrypto
        (sampleRemote 0 (some 2) "E: no network" sampleFile) sampleJson "proj-1" "us-central1-a" =
      ⟨[⟨EventType.ProvisioningStarted, none, "proj-1"⟩], none⟩ := by
  refine ⟨sampleRemote_install_third_fails _ _ _ _ _ _, ?_⟩
  simp [Provisioner.Provision, MakeSSHKeyPair, sampleCrypto, sampleClient, Provision.resolveIP,
    sampleRemote_install_third_fails]

end gcp

namespace digitalocean

open common

/-- Claim C4, the failing input. Key generation and droplet creation succeed and the droplet
record has no v4 network: the DigitalOcean task sends `ProvisioningStarted` and is then
stopped by the index-out-of-range panic, with no terminal event. -/
theorem provision_without_v4_network_panics :
    Provisioner.Provision (sampleClient [sampleProject] [sampleRegion "nyc1" true] []) sampleCrypto
        sampleClock (sampleRemote 0 none "" sampleFile) sampleJson "p-1" "nyc1" =
      ⟨[⟨EventType.ProvisioningStarted, none, "p-1"⟩],
        some ⟨"index out of range [0] with length 0"⟩⟩ := by
  simp [Provisioner.Provision, MakeSSHKeyPair, sampleCrypto, sampleClient]

end digitalocean

namespace digitalocean

open common

/-- The region loop keeps the available regions, in order. -/
theorem Validate.locsLoop_eq (rs : List RegionInfo) :
    ∀ locs, Validate.locsLoop rs locs = locs ++ rs.filter (fun ri => ri.Available) := by
  induction rs with
  | nil => intro locs; simp [Validate.locsLoop]
  | cons ri rs ih =>
    intro locs
    cases h : ri.Available <;> simp [Validate.locsLoop, h, ih]

/-- The project loop makes one entry per project, in order. -/
theorem Validate.entriesLoop_eq (locs : List RegionInfo) (ps : List ProjectInfo) :
    ∀ entries, Validate.entriesLoop locs ps entries =
      entries ++ ps.map (fun project => (⟨project.Id, locs⟩ : CompartmentEntry RegionInfo)) := by
  induction ps with
  | nil => intro entries; simp [Validate.entriesLoop]
  | cons pr ps ih => intro entries; simp [Validate.entriesLoop, ih]

/-- Claim C5. The DigitalOcean validation task never panics and sends exactly two events,
`ValidationStarted` and one of `ValidationCompleted`, `ValidationError`. The error event
carries the error of the first failing call among account, project list and region list.
When the three calls succeed the task sends `ValidationCompleted`, and `Compartments()` is
one compartment (ID the account UUID, name the account email) with one entry per project in
listing order, each holding the regions marked available in listing order; with no project
the compartment has no entry. -/
theorem validate_events_and_compartments (api : APIClient) (p : Provisioner) (token : String) :
    (Provisioner.Validate api p token).2.panic = none ∧
    (∃ terminal, (Provisioner.Validate api p token).2.events =
        [⟨EventType.ValidationStarted, none, ""⟩, terminal] ∧
      (terminal.Type_ = EventType.ValidationCompleted ∨
        terminal.Type_ = EventType.ValidationError)) ∧
    (∀ e, api.GetAccount token = Except.error e →
      (Provisioner.Validate api p token).2.events =
        [⟨EventType.ValidationStarted, none, ""⟩, ⟨EventType.ValidationError, some e, ""⟩]) ∧
    (∀ a e, api.GetAccount token = Except.ok a → api.GetProjects = Except.error e →
      (Provisioner.Validate api p token).2.events =
        [⟨EventType.ValidationStarted, none, ""⟩, ⟨EventType.ValidationError, some e, ""⟩]) ∧
    (∀ a ps e, api.GetAccount token = Except.ok a → api.GetProjects = Except.ok ps →
      api.GetRegionInfo = Except.error e →
      (Provisioner.Validate api p token).2.events =
        [⟨EventType.ValidationStarted, none, ""⟩, ⟨EventType.ValidationError, some e, ""⟩]) ∧
    (∀ a ps rs, api.GetAccount token = Except.ok a → api.GetProjects = Except.ok ps →
      api.GetRegionInfo = Except.ok rs →
      (Provisioner.Validate api p token).2.events =
        [⟨EventType.ValidationStarted, none, ""⟩, ⟨EventType.ValidationCompleted, none, ""⟩] ∧
      (Provisioner.Validate api p token).1.Compartments =
        [⟨a.UUID, a.Email,
          ps.map (fun project => ⟨project.Id, rs.filter (fun ri => ri.Available)⟩)⟩]) ∧
    (∀ a rs, api.GetAccount token = Except.ok a → api.GetProjects = Except.ok [] →
      api.GetRegionInfo = Except.ok rs →
      (Provisioner.Validate api p token).2.events =
        [⟨EventType.ValidationStarted, none, ""⟩, ⟨EventType.ValidationCompleted, none, ""⟩] ∧
      (Provisioner.Validate api p token).1.Compartments = [⟨a.UUID, a.Email, []⟩]) := by
  unfold Provisioner.Validate Provisioner.Compartments
  cases ha : api.GetAccount token with
  | error e => simp
  | ok a =>
    cases hp : api.GetProjects with
    | error e => simp
    | ok ps =>
      cases hr : api.GetRegionInfo with
      | error e => simp
      | ok rs =>
        refine ⟨rfl, ⟨_, rfl, Or.inl rfl⟩, ?_, ?_, ?_, ?_, ?_⟩
        · intro e he; simp at he
        · intro a2 e _ he; simp at he
        · intro a2 ps2 e _ _ he; simp at he
        · intro a2 ps2 rs2 h1 h2 h3
          simp only [Except.ok.injEq] at h1 h2 h3
          subst h1 h2 h3
          refine ⟨rfl, ?_⟩
          simp [Validate.locsLoop_eq, Validate.entriesLoop_eq]
        · intro a2 rs2 h1 h2 h3
          simp only [Except.ok.injEq] at h1 h2 h3
          subst h1 h2 h3
          exact ⟨rfl, rfl⟩

end digitalocean

namespace gcp

open common

/-- The zone loop keeps the zones that resolve to a location, in order. -/
theorem Validate.zoneLoop_eq {Z : Type} [CloudLocation Z]
    (hZ : ∀ z : Z, ∃ o, CloudLocation.GetLocation z = Except.ok o) (zones : List Z) :
    ∀ res, Validate.zoneLoop zones res = Except.ok (res ++ zones.filter resolvable) := by
  induction zones with
  | nil => intro res; simp [Validate.zoneLoop]
  | cons z zones ih =>
    intro res
    obtain ⟨o, ho⟩ := hZ z
    cases o with
    | none => simp [Validate.zoneLoop, resolvable, ho, ih]
    | some loc => simp [Validate.zoneLoop, resolvable, ho, ih]

/-- The project loop records the entries described by `Validate.specEntry`, in order. -/
theorem Validate.projectLoop_eq {Z : Type} [CloudLocation Z] (api : APIClient Z)
    (hZ : ∀ z : Z, ∃ o, CloudLocation.GetLocation z = Except.ok o) (ps : List String) :
    ∀ entries, Validate.projectLoop api ps entries =
      Except.ok (entries ++ ps.filterMap (Validate.specEntry api)) := by
  induction ps with
  | nil => intro entries; simp [Validate.projectLoop]
  | cons project ps ih =>
    intro entries
    cases hz : api.ListZones project with
    | error e => simp [Validate.projectLoop, Validate.specEntry, hz, ih]
    | ok zones =>
      cases zones with
      | nil => simp [Validate.projectLoop, Validate.specEntry, hz, ih]
      | cons z zs =>
        simp [Validate.projectLoop, Validate.specEntry, hz, ih, Validate.zoneLoop_eq hZ]

/-- The account loop when every project listing succeeds. -/
theorem Validate.accountLoop_all_ok {Z : Type} [CloudLocation Z] (api : APIClient Z)
    (hZ : ∀ z : Z, ∃ o, CloudLocation.GetLocation z = Except.ok o) (ba : List BillingAccount) :
    (∀ account, account ∈ ba → ∃ ps, api.ListBillingAccountProjects account.Name = Except.ok ps) →
    ∀ compartments, Validate.accountLoop api ba compartments =
      (compartments ++ ba.filterMap (Validate.specCompartment api),
        ⟨[⟨EventType.ValidationCompleted, none, ""⟩], none⟩) := by
  induction ba with
  | nil => intro _ compartments; simp [Validate.accountLoop]
  | cons account ba ih =>
    intro hall compartments
    obtain ⟨ps, hps⟩ := hall account (List.mem_cons_self _ _)
    have ih2 := ih (fun a ha => hall a (List.mem_cons_of_mem _ ha))
    cases ps with
    | nil => simp [Validate.accountLoop, Validate.specCompartment, hps, ih2]
    | cons pr ps =>
      simp [Validate.accountLoop, Validate.specCompartment, hps, ih2,
        Validate.projectLoop_eq api hZ]

/-- The account loop when some project listing fails: one `ValidationError` event. -/
theorem Validate.accountLoop_error {Z : Type} [CloudLocation Z] (api : APIClient Z)
    (hZ : ∀ z : Z, ∃ o, CloudLocation.GetLocation z = Except.ok o) (ba : List BillingAccount) :
    (∃ account, account ∈ ba ∧ ∃ e, api.ListBillingAccountProjects account.Name = Except.error e) →
    ∀ compartments, ∃ e cs, Validate.accountLoop api ba compartments =
      (cs, ⟨[⟨EventType.ValidationError, some e, ""⟩], none⟩) := by
  induction ba with
  | nil => rintro ⟨a, ha, -⟩; simp at ha
  | cons account ba ih =>
    intro hex compartments
    cases hps : api.ListBillingAccountProjects account.Name with
    | error e => exact ⟨e, compartments, by simp [Validate.accountLoop, hps]⟩
    | ok ps =>
      have hrest : ∃ a, a ∈ ba ∧ ∃ e, api.ListBillingAccountProjects a.Name = Except.error e := by
        obtain ⟨a, ha, e, he⟩ := hex
        rcases List.mem_cons.mp ha with rfl | hmem
        · rw [hps] at he; simp at he
        · exact ⟨a, hmem, e, he⟩
      cases ps with
      | nil =>
        obtain ⟨e, cs, h⟩ := ih hrest compartments
        exact ⟨e, cs, by simp [Validate.accountLoop, hps, h]⟩
      | cons pr ps =>
        obtain ⟨e, cs, h⟩ := ih hrest
          (compartments ++ [⟨account.Name, account.DisplayName,
            (pr :: ps).filterMap (Validate.specEntry api)⟩])
        exact ⟨e, cs, by simp [Validate.accountLoop, hps, Validate.projectLoop_eq api hZ, h]⟩

end gcp

namespace gcp

open common

/-- Claim C6. When the zones' `GetLocation` returns, the GCP validation task does not panic
and sends exactly two events, `ValidationStarted` and one of `ValidationCompleted`,
`ValidationError`. `ValidationError` is sent if and only if listing the billing accounts
fails or listing the projects of some billing account fails. Otherwise `ValidationCompleted`
is sent and the compartments added are those of `Validate.specCompartment`, account by
account in listing order: no compartment for an account without projects, and in each
compartment the entries of `Validate.specEntry` in project order, where a project whose zone
listing fails (or is empty) has no entry. -/
theorem validate_error_iff_listing_fails {Z : Type} [CloudLocation Z] (api : APIClient Z)
    (p : Provisioner Z) (token : String)
    (hZ : ∀ z : Z, ∃ o, CloudLocation.GetLocation z = Except.ok o) :
    (Provisioner.Validate api p token).2.panic = none ∧
    (∃ terminal, (Provisioner.Validate api p token).2.events =
        [⟨EventType.ValidationStarted, none, ""⟩, terminal] ∧
      (terminal.Type_ = EventType.ValidationCompleted ∨
        terminal.Type_ = EventType.ValidationError)) ∧
    ((∃ ev, ev ∈ (Provisioner.Validate api p token).2.events ∧
        ev.Type_ = EventType.ValidationError) ↔
      ((∃ e, api.ListBillingAccounts = Except.error e) ∨
        ∃ ba, api.ListBillingAccounts = Except.ok ba ∧
          ∃ account, account ∈ ba ∧
            ∃ e, api.ListBillingAccountProjects account.Name = Except.error e)) ∧
    (∀ ba, api.ListBillingAccounts = Except.ok ba →
      (∀ account, account ∈ ba →
        ∃ ps, api.ListBillingAccountProjects account.Name = Except.ok ps) →
      (Provisioner.Validate api p token).2.events =
        [⟨EventType.ValidationStarted, none, ""⟩, ⟨EventType.ValidationCompleted, none, ""⟩] ∧
      (Provisioner.Validate api p token).1.Compartments =
        p.compartments ++ ba.filterMap (Validate.specCompartment api)) := by
  unfold Provisioner.Validate Provisioner.Compartments
  cases hba : api.ListBillingAccounts with
  | error e =>
    refine ⟨rfl, ⟨_, rfl, Or.inr rfl⟩, ?_, ?_⟩
    · constructor
      · intro _; exact Or.inl ⟨e, rfl⟩
      · intro _; exact ⟨⟨EventType.ValidationError, some e, ""⟩, by simp, rfl⟩
    · intro ba h; simp at h
  | ok ba =>
    by_cases hex : ∃ account, account ∈ ba ∧
        ∃ e, api.ListBillingAccountProjects account.Name = Except.error e
    · obtain ⟨e, cs, hloop⟩ := Validate.accountLoop_error api hZ ba hex p.compartments
      simp only []
      rw [hloop]
      refine ⟨rfl, ⟨_, rfl, Or.inr rfl⟩, ?_, ?_⟩
      · constructor
        · intro _; exact Or.inr ⟨ba, rfl, hex⟩
        · intro _; exact ⟨⟨EventType.ValidationError, some e, ""⟩, by simp, rfl⟩
      · intro ba2 h hall
        simp only [Except.ok.injEq] at h
        subst h
        obtain ⟨a, ha, e2, he2⟩ := hex
        obtain ⟨ps, hps⟩ := hall a ha
        rw [hps] at he2
        simp at he2
    · have hall : ∀ account, account ∈ ba →
          ∃ ps, api.ListBillingAccountProjects account.Name = Except.ok ps := by
        intro a ha
        cases hps : api.ListBillingAccountProjects a.Name with
        | error e => exact absurd ⟨a, ha, e, hps⟩ hex
        | ok ps => exact ⟨ps, rfl⟩
      have hloop := Validate.accountLoop_all_ok api hZ ba hall p.compartments
      simp only []
      rw [hloop]
      refine ⟨rfl, ⟨_, rfl, Or.inl rfl⟩, ?_, ?_⟩
      · constructor
        · rintro ⟨ev, hev, hty⟩
          simp only [List.mem_cons, List.mem_singleton, List.not_mem_nil, or_false] at hev
          rcases hev with rfl | rfl <;> simp at hty
        · rintro (⟨e, he⟩ | ⟨ba2, h, hex2⟩)
          · simp at he
          · simp only [Except.ok.injEq] at h
            subst h
            exact absurd hex2 hex
      · intro ba2 h _
        simp only [Except.ok.injEq] at h
        subst h
        exact ⟨rfl, rfl⟩

/-- Witness for `validate_error_iff_listing_fails`: one account with three projects; the
zone listing of the first fails and that of the third is empty. -/
theorem validate_error_iff_listing_fails_witness :
    (Provisioner.Validate (sampleClient ["proj-1", "proj-2", "proj-3"] sampleZones) ⟨[]⟩
        "token").2.events =
      [⟨EventType.ValidationStarted, none, ""⟩, ⟨EventType.ValidationCompleted, none, ""⟩] ∧
    (Provisioner.Validate (sampleClient ["proj-1", "proj-2", "proj-3"] sampleZones) ⟨[]⟩
        "token").1.Compartments =
      [⟨"billingAccounts/1", "Main", [⟨"proj-2", [⟨"europe-west4-a", some AMSTERDAM⟩]⟩]⟩] :=
  have h := (validate_error_iff_listing_fails
    (sampleClient ["proj-1", "proj-2", "proj-3"] sampleZones) ⟨[]⟩ "token"
    (fun z => ⟨z.Location, rfl⟩)).2.2.2 [⟨"billingAccounts/1", "Main"⟩] rfl
    (fun _ _ => ⟨["proj-1", "proj-2", "proj-3"], rfl⟩)
  ⟨h.1, h.2.trans (by rfl)⟩

end gcp

namespace common

/-- The lookup returns the first location that carries the label: of two records with the
same slug, the lookup of the label of the second returns the first. -/
theorem lookup_returns_first_location_with_label :
    digitalocean.nyc1Legacy ∈ [digitalocean.nyc1, digitalocean.nyc1Legacy] ∧
    CloudLocation.GetLocation digitalocean.nyc1Legacy = Except.ok (some NEW_YORK_CITY) ∧
    CompartmentLocationByIdentifier [digitalocean.nyc1, digitalocean.nyc1Legacy]
        (locationLabel (CloudLocation.GetID digitalocean.nyc1Legacy) NEW_YORK_CITY)
      = Except.ok (some digitalocean.nyc1) ∧
    digitalocean.nyc1 ≠ digitalocean.nyc1Legacy :=
  ⟨by simp, rfl, rfl, by decide⟩

/-- Claim C7, the failing input. DigitalOcean lists the available regions `atl1` and `nyc1`;
`Validate` records both as the locations of the project. `nyc1` is in that list and resolves
to New York City, `CompartmentEntryLocations` offers its label `nyc1 - new-york-city [US]`
(skipping `atl1`, which has no location), and the lookup of that label in the same list does
not return `nyc1`: it is stopped by the nil pointer dereference at `atl1`. -/
theorem lookup_panics_on_unresolvable_location :
    (digitalocean.Provisioner.Validate
        (digitalocean.sampleClient [digitalocean.sampleProject]
          [digitalocean.sampleRegion "atl1" true, digitalocean.nyc1] [])
        ⟨[]⟩ "token").1.Compartments =
      [⟨"uuid-1", "ops@example.org",
        [⟨"p-1", [digitalocean.sampleRegion "atl1" true, digitalocean.nyc1]⟩]⟩] ∧
    digitalocean.nyc1 ∈ [digitalocean.sampleRegion "atl1" true, digitalocean.nyc1] ∧
    CloudLocation.GetLocation digitalocean.nyc1 = Except.ok (some NEW_YORK_CITY) ∧
    locationLabel (CloudLocation.GetID digitalocean.nyc1) NEW_YORK_CITY =
      "nyc1 - new-york-city [US]" ∧
    CompartmentEntryLocations
        (⟨"p-1", [digitalocean.sampleRegion "atl1" true, digitalocean.nyc1]⟩ :
          CompartmentEntry digitalocean.RegionInfo)
      = Except.ok ["nyc1 - new-york-city [US]"] ∧
    CompartmentLocationByIdentifier [digitalocean.sampleRegion "atl1" true, digitalocean.nyc1]
        "nyc1 - new-york-city [US]"
      = Except.error ⟨"invalid memory address or nil pointer dereference"⟩ :=
  ⟨rfl, by simp, rfl, rfl, rfl, rfl⟩

/-- The lookup inverts the label formatting on a list that keeps the invariants: where
every location before `c` resolves and has a label different from that of `c`, and `c`
resolves to `loc`, the lookup of the label of `c` returns `c`. -/
theorem CompartmentLocationByIdentifier_inverse {L : Type} [CloudLocation L]
    (pre post : List L) (c : L) (loc : GeoLocation)
    (hloc : CloudLocation.GetLocation c = Except.ok (some loc))
    (hpre : ∀ x, x ∈ pre → ∃ lx, CloudLocation.GetLocation x = Except.ok (some lx) ∧
      locationLabel (CloudLocation.GetID x) lx ≠ locationLabel (CloudLocation.GetID c) loc) :
    CompartmentLocationByIdentifier (pre ++ c :: post)
        (locationLabel (CloudLocation.GetID c) loc) = Except.ok (some c) := by
  induction pre with
  | nil => simp [CompartmentLocationByIdentifier, hloc]
  | cons x pre ih =>
    obtain ⟨lx, hlx, hne⟩ := hpre x (List.mem_cons_self _ _)
    have ih2 := ih (fun y hy => hpre y (List.mem_cons_of_mem _ hy))
    simp only [List.cons_append, CompartmentLocationByIdentifier, hlx]
    rw [if_neg (fun h => hne h.symm)]
    exact ih2

/-- An instance of `CompartmentLocationByIdentifier_inverse`: `nyc1` after `fra1`. -/
theorem CompartmentLocationByIdentifier_inverse_witness :
    CompartmentLocationByIdentifier
        ([digitalocean.sampleRegion "fra1" true] ++ digitalocean.nyc1 ::
          [digitalocean.sampleRegion "atl1" true])
        (locationLabel (CloudLocation.GetID digitalocean.nyc1) NEW_YORK_CITY)
      = Except.ok (some digitalocean.nyc1) :=
  CompartmentLocationByIdentifier_inverse [digitalocean.sampleRegion "fra1" true]
    [digitalocean.sampleRegion "atl1" true] digitalocean.nyc1 NEW_YORK_CITY rfl
    (fun x hx => ⟨FRANKFURT, by
      rw [List.mem_singleton.mp hx]
      exact ⟨rfl, by decide⟩⟩)

end common

namespace gcp

open common

/-- Claim C10, the failing inputs. GCP: a project whose zone listing is not empty but has no
zone that resolves to a location is recorded as an entry with no location at all.
DigitalOcean: with one project and one available region whose slug has no location, the
entry holds that region only, so no location of the entry resolves; with no available region
the entry has no location. Each time `ValidationCompleted` is sent. -/
theorem validate_keeps_entries_without_usable_location :
    Provisioner.Validate
        (sampleClient ["proj-1"] (fun _ => Except.ok [(⟨"moon-1-a", none⟩ : SampleZone)]))
        ⟨[]⟩ "token" =
      (⟨[⟨"billingAccounts/1", "Main", [⟨"proj-1", []⟩]⟩]⟩,
        ⟨[⟨EventType.ValidationStarted, none, ""⟩, ⟨EventType.ValidationCompleted, none, ""⟩],
          none⟩) ∧
    digitalocean.Provisioner.Validate
        (digitalocean.sampleClient [digitalocean.sampleProject]
          [digitalocean.sampleRegion "atl1" true, digitalocean.sampleRegion "sfo3" false] [])
        ⟨[]⟩ "token" =
      (⟨[⟨"uuid-1", "ops@example.org",
          [⟨"p-1", [digitalocean.sampleRegion "atl1" true]⟩]⟩]⟩,
        ⟨[⟨EventType.ValidationStarted, none, ""⟩, ⟨EventType.ValidationCompleted, none, ""⟩],
          none⟩) ∧
    resolvable (digitalocean.sampleRegion "atl1" true) = false ∧
    digitalocean.Provisioner.Validate
        (digitalocean.sampleClient [digitalocean.sampleProject]
          [digitalocean.sampleRegion "sfo3" false] [])
        ⟨[]⟩ "token" =
      (⟨[⟨"uuid-1", "ops@example.org", [⟨"p-1", []⟩]⟩]⟩,
        ⟨[⟨EventType.ValidationStarted, none, ""⟩, ⟨EventType.ValidationCompleted, none, ""⟩],
          none⟩) :=
  ⟨rfl, rfl, rfl, rfl⟩

end gcp

namespace digitalocean

open common

/-- Witness for `validate_events_and_compartments`: a token with no project and two regions
still gives `ValidationCompleted`, and one compartment without entries. -/
theorem validate_events_and_compartments_witness :
    (Provisioner.Validate
        (sampleClient [] [sampleRegion "nyc1" true, sampleRegion "sfo3" false] []) ⟨[]⟩
        "token").2.events =
      [⟨EventType.ValidationStarted, none, ""⟩, ⟨EventType.ValidationCompleted, none, ""⟩] ∧
    (Provisioner.Validate
        (sampleClient [] [sampleRegion "nyc1" true, sampleRegion "sfo3" false] []) ⟨[]⟩
        "token").1.Compartments = [⟨"uuid-1", "ops@example.org", []⟩] :=
  (validate_events_and_compartments
    (sampleClient [] [sampleRegion "nyc1" true, sampleRegion "sfo3" false] []) ⟨[]⟩
    "token").2.2.2.2.2.2 ⟨10, "ops@example.org", "uuid-1", true, "active", ""⟩
    [sampleRegion "nyc1" true, sampleRegion "sfo3" false] rfl rfl rfl

/-- The DigitalOcean provisioning task either sends `ProvisioningStarted` and one terminal
event, or was handed a droplet without a v4 network and is stopped by the panic right after
`ProvisioningStarted`. -/
theorem provision_two_events_or_panic (api : APIClient) (crypto : Crypto) (clock : Clock)
    (r : Remote) (j : Json) (placementID locationID : String) :
    ((Provisioner.Provision api crypto clock r j placementID locationID).panic = none ∧
      ∃ terminal, (Provisioner.Provision api crypto clock r j placementID locationID).events =
          [⟨EventType.ProvisioningStarted, none, placementID⟩, terminal] ∧
        (terminal.Type_ = EventType.ProvisioningCompleted ∨
          terminal.Type_ = EventType.ProvisioningError)) ∨
    ((Provisioner.Provision api crypto clock r j placementID locationID) =
        ⟨[⟨EventType.ProvisioningStarted, none, placementID⟩],
          some ⟨"index out of range [0] with length 0"⟩⟩ ∧
      ∃ keys di, MakeSSHKeyPair crypto = Except.ok keys ∧
        api.CreateDroplet (MakeInstanceName clock) locationID keys.1
          ⟨"", "s-1vcpu-1gb", "ubuntu-22-04-x64", []⟩ = Except.ok di ∧ di.V4 = []) := by
  unfold Provisioner.Provision
  cases hk : MakeSSHKeyPair crypto with
  | error e => exact Or.inl ⟨rfl, _, rfl, Or.inr rfl⟩
  | ok keys =>
    obtain ⟨pub, priv⟩ := keys
    simp only
    cases hd : api.CreateDroplet (MakeInstanceName clock) locationID pub
        ⟨"", "s-1vcpu-1gb", "ubuntu-22-04-x64", []⟩ with
    | error e => exact Or.inl ⟨rfl, _, rfl, Or.inr rfl⟩
    | ok di =>
      simp only
      cases hv : di.V4 with
      | nil => exact Or.inr ⟨rfl, (pub, priv), di, rfl, hd, hv⟩
      | cons v vs =>
        simp only
        cases (InstallServer r j v.IPAddress priv "root" St.init).1 with
        | error e => exact Or.inl ⟨rfl, _, rfl, Or.inr rfl⟩
        | ok conf => exact Or.inl ⟨rfl, _, rfl, Or.inl rfl⟩

/-- The end-to-end sample run: the droplet has the address `203.0.113.5`, the seven commands
succeed, the remote file is the sample file; the task sends `ProvisioningCompleted` with the
encoding of that record. -/
theorem provision_sample_run_completes :
    Provisioner.Provision (sampleClient [sampleProject] [nyc1] [⟨"public", "203.0.113.5"⟩])
        sampleCrypto sampleClock (sampleRemote 0 none "" sampleFile) sampleJson "p-1" "nyc1" =
      ⟨[⟨EventType.ProvisioningStarted, none, "p-1"⟩,
        ⟨EventType.ProvisioningCompleted, none, sampleFile⟩], none⟩ := by
  simp only [Provisioner.Provision, MakeSSHKeyPair, sampleCrypto, sampleClient,
    sampleRemote_install_ok]
  rfl

end digitalocean

namespace gcp

open common

/-- The GCP provisioning task, for any outcome of its collaborators: it sends
`ProvisioningStarted` and one terminal event, unless `InstallServer` failed (then it sends
`ProvisioningStarted` only and returns) or the instance had no network interface when the
address lookup failed (then it is stopped by a panic after `ProvisioningStarted`). -/
theorem provision_events_cases {Z : Type} (api : APIClient Z) (crypto : Crypto) (r : Remote)
    (j : Json) (projectID locationID : String) :
    ((Provisioner.Provision api crypto r j projectID locationID).panic = none ∧
      ∃ terminal, (Provisioner.Provision api crypto r j projectID locationID).events =
          [⟨EventType.ProvisioningStarted, none, projectID⟩, terminal] ∧
        (terminal.Type_ = EventType.ProvisioningCompleted ∨
          terminal.Type_ = EventType.ProvisioningError)) ∨
    ((Provisioner.Provision api crypto r j projectID locationID) =
        ⟨[⟨EventType.ProvisioningStarted, none, projectID⟩], none⟩ ∧
      ∃ ip key e, (InstallServer r j ip key "ubuntu" St.init).1 = Except.error e) ∨
    (∃ p, (Provisioner.Provision api crypto r j projectID locationID) =
        ⟨[⟨EventType.ProvisioningStarted, none, projectID⟩], some p⟩) := by
  unfold Provisioner.Provision
  cases hk : MakeSSHKeyPair crypto with
  | error e => exact Or.inl ⟨rfl, _, rfl, Or.inr rfl⟩
  | ok keys =>
    obtain ⟨pub, priv⟩ := keys
    simp only
    cases hh : api.IsProjectHealthy projectID with
    | false => exact Or.inl ⟨rfl, _, rfl, Or.inr rfl⟩
    | true =>
      simp only [Bool.not_true, Bool.false_eq_true, if_false]
      cases hf : api.CreateFirewallIfNeeded projectID with
      | some e => exact Or.inl ⟨rfl, _, rfl, Or.inr rfl⟩
      | none =>
        simp only
        cases hc : api.CreateInstance projectID locationID pub with
        | error e => exact Or.inl ⟨rfl, _, rfl, Or.inr rfl⟩
        | ok names =>
          obtain ⟨instanceName, instanceID⟩ := names
          simp only
          cases hg : api.GetInstance ⟨projectID, locationID, instanceID⟩ with
          | error e => exact Or.inl ⟨rfl, _, rfl, Or.inr rfl⟩
          | ok inst =>
            simp only
            cases hip : Provision.resolveIP api ⟨projectID, api.GetZoneRegionID locationID⟩
                instanceName inst with
            | panicked p => exact Or.inr (Or.inr ⟨p, rfl⟩)
            | failed e => exact Or.inl ⟨rfl, _, rfl, Or.inr rfl⟩
            | ip addr =>
              simp only
              cases hi : (InstallServer r j addr priv "ubuntu" St.init).1 with
              | error e => exact Or.inr (Or.inl ⟨rfl, addr, priv, e, hi⟩)
              | ok sc => exact Or.inl ⟨rfl, _, rfl, Or.inl rfl⟩

end gcp

namespace common

/-- The label loop appends the labels of the locations that resolve, in order. -/
theorem CompartmentEntryLocations.loop_eq {L : Type} [CloudLocation L] (locs : List L)
    (h : ∀ e, e ∈ locs → ∃ o, CloudLocation.GetLocation e = Except.ok o) :
    ∀ locations, CompartmentEntryLocations.loop locs locations =
      Except.ok (locations ++ locs.filterMap specLabel) := by
  induction locs with
  | nil => intro locations; simp [CompartmentEntryLocations.loop]
  | cons e locs ih =>
    intro locations
    obtain ⟨o, ho⟩ := h e (List.mem_cons_self _ _)
    have ih2 := ih (fun x hx => h x (List.mem_cons_of_mem _ hx))
    cases o with
    | none => simp [CompartmentEntryLocations.loop, specLabel, ho, ih2]
    | some loc => simp [CompartmentEntryLocations.loop, specLabel, ho, ih2]

/-- A location has a label exactly when it resolves. -/
theorem specLabel_isSome {L : Type} [CloudLocation L] (e : L) :
    (specLabel e).isSome = resolvable e := by
  unfold specLabel resolvable
  cases CloudLocation.GetLocation e with
  | error p => rfl
  | ok o => cases o <;> rfl

/-- The number of labels of a list of locations. -/
theorem length_filterMap_specLabel {L : Type} [CloudLocation L] (locs : List L) :
    (locs.filterMap specLabel).length = (locs.filter resolvable).length := by
  induction locs with
  | nil => rfl
  | cons e locs ih =>
    have hs := specLabel_isSome e
    cases hl : specLabel e with
    | none =>
      rw [hl] at hs
      simp [List.filterMap_cons, hl, List.filter_cons, ← hs, ih]
    | some s =>
      rw [hl] at hs
      simp [List.filterMap_cons, hl, List.filter_cons, ← hs, ih]

/-- Claim C11. For an entry whose locations all answer `GetLocation`, the labels returned
by `CompartmentEntryLocations` are, in the order of `entry.Locations`, the label
`<GetID()> - <geo ID> [<country code>]` of each location that has a `GeoLocation`, with
nothing for a location that has none; their number is the number of locations that
resolve. -/
theorem CompartmentEntryLocations_labels {L : Type} [CloudLocation L]
    (entry : CompartmentEntry L)
    (h : ∀ e, e ∈ entry.Locations → ∃ o, CloudLocation.GetLocation e = Except.ok o) :
    CompartmentEntryLocations entry = Except.ok (entry.Locations.filterMap specLabel) ∧
    (∀ (e : L) (loc : GeoLocation), CloudLocation.GetLocation e = Except.ok (some loc) →
      specLabel e = some (CloudLocation.GetID e ++ " - " ++ loc.ID ++ " [" ++ loc.CountryCode
        ++ "]")) ∧
    (∀ e : L, CloudLocation.GetLocation e = Except.ok none → specLabel e = none) ∧
    (entry.Locations.filterMap specLabel).length = (entry.Locations.filter resolvable).length := by
  refine ⟨?_, ?_, ?_, length_filterMap_specLabel _⟩
  · unfold CompartmentEntryLocations
    rw [CompartmentEntryLocations.loop_eq entry.Locations h]
    simp
  · intro e loc hloc
    simp [specLabel, hloc, locationLabel]
  · intro e hloc
    simp [specLabel, hloc]

/-- Witness for `CompartmentEntryLocations_labels`: three regions, the second without a
location. -/
theorem CompartmentEntryLocations_labels_witness :
    CompartmentEntryLocations
        (⟨"p-1", [digitalocean.sampleRegion "fra1" true, digitalocean.sampleRegion "atl1" true,
          digitalocean.nyc1]⟩ : CompartmentEntry digitalocean.RegionInfo) =
      Except.ok ["fra1 - frankfurt [DE]", "nyc1 - new-york-city [US]"] :=
  (CompartmentEntryLocations_labels
    (⟨"p-1", [digitalocean.sampleRegion "fra1" true, digitalocean.sampleRegion "atl1" true,
      digitalocean.nyc1]⟩ : CompartmentEntry digitalocean.RegionInfo)
    (by
      intro e he
      simp only [List.mem_cons, List.mem_singleton, List.not_mem_nil, or_false] at he
      rcases he with rfl | rfl | rfl
      · exact ⟨some FRANKFURT, rfl⟩
      · exact ⟨none, rfl⟩
      · exact ⟨some NEW_YORK_CITY, rfl⟩)).1.trans (by rfl)

/-- When the key parses and the first eleven dials fail, `establishSSH` returns the
`fmt.Errorf` value that wraps the error of the eleventh dial and has `tryCounter`, which is
10, as its integer argument, after eleven dials. -/
theorem establishSSH_exhausted_error (r : Remote) (ip privateKey username : String)
    (hkey : r.parsePrivateKey privateKey = none)
    (hall : ∀ j, j < 11 → r.dial j ≠ none) :
    ∃ e, r.dial 10 = some e ∧
      (establishSSH r ip privateKey username St.init).1 =
        Except.error (GoError.errorf "failed to dial SSH: %w after %d attempts" [] [10] e) ∧
      dialCount (establishSSH r ip privateKey username St.init).2.trace = 11 := by
  obtain ⟨e, he, hloop⟩ := establishSSH.loop_exhaust r ip 10 0 St.init (by simp [maxTries])
    (by intro j hj; simpa [St.init] using hall j (by omega))
  refine ⟨e, by simpa [St.init] using he, ?_, ?_⟩
  · simp only [establishSSH, hkey]
    rw [hloop]
    simp
  · simp only [establishSSH, hkey]
    rw [hloop]
    simp only [St.init, List.nil_append]
    exact dialCount_retryTrace _ 10

/-- Claim C12, the failing input. Every dial is refused: `establishSSH` makes eleven dials
and returns an error that wraps the error of the last one (dial index 10) and reports 10
attempts. -/
theorem establishSSH_reports_ten_after_eleven_dials :
    (establishSSH refusingRemote "203.0.113.5" "key" "root" St.init).1 =
      Except.error (GoError.errorf "failed to dial SSH: %w after %d attempts" [] [10]
        (GoError.new "connection refused (dial 10)")) ∧
    dialCount (establishSSH refusingRemote "203.0.113.5" "key" "root" St.init).2.trace = 11 := by
  obtain ⟨e, he, hres, hcount⟩ := establishSSH_exhausted_error refusingRemote "203.0.113.5" "key"
    "root" rfl (by intro j _; simp [refusingRemote])
  have he2 : e = GoError.new "connection refused (dial 10)" := by
    have h10 : refusingRemote.dial 10 = some (GoError.new "connection refused (dial 10)") := rfl
    rw [h10] at he
    exact (Option.some.inj he).symm
  rw [he2] at hres
  exact ⟨hres, hcount⟩

end common

namespace digitalocean

open common

/-- An ASCII character is one byte. -/
theorem utf8Bytes_ascii (c : Char) (h : c.toNat < 128) : utf8Bytes c = [c.toNat] := by
  simp [utf8Bytes, h]

/-- The first byte of a character outside ASCII is at least `0xC0`. -/
theorem utf8Bytes_nonascii (c : Char) (h : 128 ≤ c.toNat) :
    ∃ b tl, utf8Bytes c = b :: tl ∧ 192 ≤ b := by
  unfold utf8Bytes
  simp only
  split_ifs
  · omega
  · exact ⟨_, _, rfl, by omega⟩
  · exact ⟨_, _, rfl, by omega⟩
  · exact ⟨_, _, rfl, by omega⟩

/-- Every character has at least one byte. -/
theorem utf8Bytes_length_pos (c : Char) : 0 < (utf8Bytes c).length := by
  unfold utf8Bytes
  simp only
  split_ifs <;> simp

/-- Bytes outside ASCII are kept by the lower-casing. -/
theorem toLowerByte_nonascii (b : Nat) (h : 128 ≤ b) : toLowerByte b = b := by
  unfold toLowerByte
  rw [if_neg (by omega)]

/-- Lower-casing a character and lower-casing its code agree. -/
theorem toLower_toNat (c : Char) : c.toLower.toNat = toLowerByte c.toNat := by
  unfold Char.toLower toLowerByte
  simp only [ge_iff_le]
  by_cases h : 65 ≤ c.toNat ∧ c.toNat ≤ 90
  · rw [if_pos h, if_pos h]
    obtain ⟨h1, h2⟩ := h
    generalize c.toNat = n at h1 h2
    interval_cases n <;> rfl
  · rw [if_neg h, if_neg h]

/-- A character is determined by its code. -/
theorem char_eq_of_toNat_eq (c d : Char) (h : c.toNat = d.toNat) : c = d := by
  rw [← Char.ofNat_toNat c, ← Char.ofNat_toNat d, h]

/-- A key of three ASCII characters equals the lower-cased first three bytes of a slug
exactly when it equals the lower-cased first three characters. -/
theorem cityCode_match (k1 k2 k3 c1 c2 c3 : Char) (rest : List Char)
    (hk1 : k1.toNat < 128) (hk2 : k2.toNat < 128) (hk3 : k3.toNat < 128) :
    (goBytes (String.mk [k1, k2, k3]) =
        ((goBytes (String.mk (c1 :: c2 :: c3 :: rest))).take 3).map toLowerByte) ↔
      String.mk [k1, k2, k3] = String.mk [c1.toLower, c2.toLower, c3.toLower] := by
  have hL : goBytes (String.mk [k1, k2, k3]) = [k1.toNat, k2.toNat, k3.toNat] := by
    simp [goBytes, utf8Bytes_ascii, hk1, hk2, hk3]
  have hR : String.mk [k1, k2, k3] = String.mk [c1.toLower, c2.toLower, c3.toLower] ↔
      (k1.toNat = toLowerByte c1.toNat ∧ k2.toNat = toLowerByte c2.toNat ∧
        k3.toNat = toLowerByte c3.toNat) := by
    rw [← toLower_toNat, ← toLower_toNat, ← toLower_toNat]
    constructor
    · intro h
      injection h with h
      simp only [List.cons.injEq, and_true] at h
      obtain ⟨a, b, c⟩ := h
      rw [a, b, c]
      exact ⟨rfl, rfl, rfl⟩
    · rintro ⟨a, b, c⟩
      rw [char_eq_of_toNat_eq _ _ a, char_eq_of_toNat_eq _ _ b, char_eq_of_toNat_eq _ _ c]
  have hB : goBytes (String.mk (c1 :: c2 :: c3 :: rest)) =
      utf8Bytes c1 ++ (utf8Bytes c2 ++ (utf8Bytes c3 ++ goBytes (String.mk rest))) := by
    simp [goBytes]
  rw [hL, hR, hB]
  by_cases h1 : c1.toNat < 128
  · rw [utf8Bytes_ascii c1 h1]
    by_cases h2 : c2.toNat < 128
    · rw [utf8Bytes_ascii c2 h2]
      by_cases h3 : c3.toNat < 128
      · rw [utf8Bytes_ascii c3 h3]
        simp
      · obtain ⟨b, tl, hb, hge⟩ := utf8Bytes_nonascii c3 (by omega)
        have e1 := toLowerByte_nonascii b (by omega)
        have e2 := toLowerByte_nonascii c3.toNat (by omega)
        rw [hb]
        constructor
        · intro h
          have := congrArg (fun l => l[2]?) h
          simp [e1] at this
          omega
        · intro h
          have h3 := h.2.2
          omega
    · obtain ⟨b, tl, hb, hge⟩ := utf8Bytes_nonascii c2 (by omega)
      have e1 := toLowerByte_nonascii b (by omega)
      have e2 := toLowerByte_nonascii c2.toNat (by omega)
      rw [hb]
      constructor
      · intro h
        have := congrArg (fun l => l[1]?) h
        simp [e1] at this
        omega
      · intro h
        have h2 := h.2.1
        omega
  · obtain ⟨b, tl, hb, hge⟩ := utf8Bytes_nonascii c1 (by omega)
    have e1 := toLowerByte_nonascii b (by omega)
    have e2 := toLowerByte_nonascii c1.toNat (by omega)
    rw [hb]
    constructor
    · intro h
      have := congrArg (fun l => l[0]?) h
      simp [e1] at this
      omega
    · intro h
      have h1 := h.1
      omega

/-- The search of the code table by bytes and the lookup of the claim table by key agree
when the two tests agree on every entry. -/
theorem find_eq_lookup (cityCode : List Nat) (key : String) :
    ∀ tbl : List (String × GeoLocation),
      (∀ kv, kv ∈ tbl → (goBytes kv.1 = cityCode ↔ kv.1 = key)) →
      (tbl.find? (fun kv => goBytes kv.1 = cityCode)).map (fun kv => kv.2) =
        List.lookup key tbl := by
  intro tbl
  induction tbl with
  | nil => intro _; rfl
  | cons kv tbl ih =>
    intro h
    have hkv := h kv (List.mem_cons_self _ _)
    have ih2 := ih (fun x hx => h x (List.mem_cons_of_mem _ hx))
    obtain ⟨k, v⟩ := kv
    by_cases hk : k = key
    · have hb : goBytes k = cityCode := hkv.mpr hk
      subst hk
      simp [List.find?_cons, List.lookup, hb]
    · have hb : ¬ goBytes k = cityCode := fun hh => hk (hkv.mp hh)
      have hk2 : (key == k) = false := by
        simp only [beq_eq_false_iff_ne, ne_eq]
        exact fun hh => hk hh.symm
      simp only [List.find?_cons, List.lookup, hb, decide_False, hk2]
      exact ih2

/-- For a slug of at least three characters, `GetLocation` returns the location of the
claim table for the lower-cased first three characters. -/
theorem GetLocation_eq_spec (r : RegionInfo) (h : 3 ≤ r.Slug.length) :
    r.GetLocation = Except.ok (specLocation r.Slug) := by
  obtain ⟨slug, name, sizes, available, features⟩ := r
  obtain ⟨cs⟩ := slug
  simp only [String.length] at h
  match cs, h with
  | c1 :: c2 :: c3 :: rest, _ =>
    have hB : goBytes (String.mk (c1 :: c2 :: c3 :: rest)) =
        utf8Bytes c1 ++ (utf8Bytes c2 ++ (utf8Bytes c3 ++ goBytes (String.mk rest))) := by
      simp [goBytes]
    have hlen : ¬ (goBytes (String.mk (c1 :: c2 :: c3 :: rest))).length < 3 := by
      rw [hB]
      have := utf8Bytes_length_pos c1
      have := utf8Bytes_length_pos c2
      have := utf8Bytes_length_pos c3
      simp only [List.length_append]
      omega
    unfold RegionInfo.GetLocation specLocation
    simp only [hlen, if_false]
    congr 1
    apply find_eq_lookup
    intro kv hkv
    simp only [RegionInfo.locationMap, List.mem_cons, List.mem_singleton, List.not_mem_nil,
      or_false] at hkv
    rcases hkv with rfl | rfl | rfl | rfl | rfl | rfl | rfl | rfl | rfl
    · exact cityCode_match 'a' 'm' 's' c1 c2 c3 rest (by decide) (by decide) (by decide)
    · exact cityCode_match 'b' 'l' 'r' c1 c2 c3 rest (by decide) (by decide) (by decide)
    · exact cityCode_match 'f' 'r' 'a' c1 c2 c3 rest (by decide) (by decide) (by decide)
    · exact cityCode_match 'l' 'o' 'n' c1 c2 c3 rest (by decide) (by decide) (by decide)
    · exact cityCode_match 'n' 'y' 'c' c1 c2 c3 rest (by decide) (by decide) (by decide)
    · exact cityCode_match 's' 'f' 'o' c1 c2 c3 rest (by decide) (by decide) (by decide)
    · exact cityCode_match 's' 'g' 'p' c1 c2 c3 rest (by decide) (by decide) (by decide)
    · exact cityCode_match 's' 'y' 'd' c1 c2 c3 rest (by decide) (by decide) (by decide)
    · exact cityCode_match 't' 'o' 'r' c1 c2 c3 rest (by decide) (by decide) (by decide)

end digitalocean

namespace digitalocean

open common

/-- A key outside the nine city codes has no entry in the claim table. -/
theorem lookup_specTable_none (k : String)
    (hk : k ∉ ["ams", "blr", "fra", "lon", "nyc", "sfo", "sgp", "syd", "tor"]) :
    List.lookup k specTable = none := by
  simp only [List.mem_cons, List.mem_singleton, List.not_mem_nil, or_false, not_or] at hk
  obtain ⟨h1, h2, h3, h4, h5, h6, h7, h8, h9⟩ := hk
  have b1 : (k == "ams") = false := by simpa using h1
  have b2 : (k == "blr") = false := by simpa using h2
  have b3 : (k == "fra") = false := by simpa using h3
  have b4 : (k == "lon") = false := by simpa using h4
  have b5 : (k == "nyc") = false := by simpa using h5
  have b6 : (k == "sfo") = false := by simpa using h6
  have b7 : (k == "sgp") = false := by simpa using h7
  have b8 : (k == "syd") = false := by simpa using h8
  have b9 : (k == "tor") = false := by simpa using h9
  simp only [specTable, List.lookup, b1, b2, b3, b4, b5, b6, b7, b8, b9]

/-- Claim C13. For every `RegionInfo` whose slug has at least three characters, `GetID`
returns the slug and `GetLocation` returns the location that the table of the claim
(ams Amsterdam, blr Bangalore, fra Frankfurt, lon London, nyc New York City, sfo San
Francisco, sgp Singapore, syd Sydney, tor Toronto) gives for the lower-cased first three
characters, and no location when these are none of the nine codes. The scenario: of an
available `nyc1` and an unavailable `sfo3`, the region loop of `Validate` keeps `nyc1` only,
which resolves to New York City. -/
theorem RegionInfo_location_by_city_code :
    (∀ r : RegionInfo, 3 ≤ r.Slug.length →
      r.GetID = r.Slug ∧
      r.GetLocation = Except.ok (specLocation r.Slug) ∧
      (specCityCode r.Slug ∉ ["ams", "blr", "fra", "lon", "nyc", "sfo", "sgp", "syd", "tor"] →
        r.GetLocation = Except.ok none)) ∧
    specTable =
      [ ("ams", AMSTERDAM), ("blr", BANGALORE), ("fra", FRANKFURT), ("lon", LONDON),
        ("nyc", NEW_YORK_CITY), ("sfo", SAN_FRANCISCO), ("sgp", SINGAPORE), ("syd", SYDNEY),
        ("tor", TORONTO) ] ∧
    Validate.locsLoop [sampleRegion "nyc1" true, sampleRegion "sfo3" false] [] =
      [sampleRegion "nyc1" true] ∧
    (sampleRegion "nyc1" true).GetLocation = Except.ok (some NEW_YORK_CITY) := by
  refine ⟨?_, rfl, rfl, rfl⟩
  intro r h
  refine ⟨rfl, GetLocation_eq_spec r h, ?_⟩
  intro hk
  rw [GetLocation_eq_spec r h, specLocation, lookup_specTable_none _ hk]

/-- Witness for `RegionInfo_location_by_city_code`: an upper-case slug. -/
theorem RegionInfo_location_by_city_code_witness :
    3 ≤ (sampleRegion "SGP1" true).Slug.length ∧
    (sampleRegion "SGP1" true).GetID = "SGP1" ∧
    (sampleRegion "SGP1" true).GetLocation = Except.ok (some SINGAPORE) :=
  have h := RegionInfo_location_by_city_code.1 (sampleRegion "SGP1" true) (by decide)
  ⟨by decide, h.1, h.2.1.trans (by rfl)⟩

end digitalocean
